import Mathlib

/-!
# Verification of the chizzaYearly statistics aggregation engine

A shallow embedding of the aggregation core of the `chizzaYearly` repository:
the Wordle text-pattern extractor and game-stats aggregator
(`app/services/wordle_service.py`), the Discord message aggregator
(`app/services/discord_service.py`), the Hypixel membership aggregator
(`app/services/hypixel_service.py`), the summary composer and the SQLite-backed
summary store (`app/services/analytics_service.py`, `scripts/init_db.py`),
together with theorems settling the specification claims.

Modelling conventions:
* Python `int` is `Int`; Python `float` values produced here (win rates and
  guess averages, which are ratios of small integers scaled by 100, rounded to
  one or two decimals) are modelled as exact rationals `ℚ`, with Python's
  `round` modelled as round-half-to-even on the exact value.
* Python dicts are association lists in insertion order; `datetime` values are
  `(year, month, day, hour, minute, second)` tuples compared lexicographically;
  `datetime.fromtimestamp` is modelled in UTC (the code's host-timezone
  dependence is outside the claims checked here).
* Regular-expression character classes `\d` and `\s` are modelled by their
  ASCII subsets, which cover the message alphabets the claims quantify over.
* Fallible Python code returns `Except`: `PyError` stands for the exception
  class raised, `SqlError` for `sqlite3` errors.
-/

/- Batteries marks the rational field operations `@[irreducible]`, which
blocks `decide`-style evaluation of concrete rational statistics; restoring
reducibility is purely an elaboration matter (kernel checking is unchanged). -/
set_option allowUnsafeReducibility true
attribute [local reducible] Rat.mul Rat.div Rat.inv Rat.sub Rat.add

/-- A Python exception, by class, as observed by a caller. -/
inductive PyError where
  | attributeError
  | indexError
  | valueError
deriving DecidableEq

/-- A `sqlite3` error: `OperationalError` for a reference to a column that the
table schema does not define. -/
inductive SqlError where
  | noColumn (name : String)
deriving DecidableEq

deriving instance DecidableEq for Except

/-! ## Numeric helpers: Python `round` on the exact rational value -/

/-- Round to the nearest integer, ties to the even integer
(Python's `round` rule). -/
def roundHalfEven (x : ℚ) : ℤ :=
  let f : ℤ := ⌊x⌋
  let r : ℚ := x - f
  if r < 1/2 then f
  else if 1/2 < r then f + 1
  else if Even f then f else f + 1

/-- Python `round(x, 1)` on the exact rational value. -/
def round1 (x : ℚ) : ℚ := (roundHalfEven (10 * x) : ℚ) / 10

/-- Python `round(x, 2)` on the exact rational value. -/
def round2 (x : ℚ) : ℚ := (roundHalfEven (100 * x) : ℚ) / 100

/-! ## Character classes (ASCII subsets of Python `\d`, `\s`) -/

/-- The regex class `\d` (ASCII subset). -/
def isPyDigit (c : Char) : Bool := '0' ≤ c && c ≤ '9'

/-- The regex class `\s` (ASCII subset). -/
def isPySpace (c : Char) : Bool :=
  c = ' ' || c = '\t' || c = '\n' || c = '\x0b' || c = '\x0c' || c = '\r'

/-- Numeric value of an ASCII digit. -/
def digitVal (c : Char) : Int := (c.toNat : Int) - ('0'.toNat : Int)

/-- Python `str.lower()` (ASCII subset, per the conventions above). -/
def pyLower (s : String) : String := String.mk (s.data.map Char.toLower)

/-- Python's slice `s[:n]` (by characters). -/
def strTake (s : String) (n : Nat) : String := String.mk (s.data.take n)

/-- Digit list to the nonnegative integer it denotes (most significant first). -/
def digitsToInt (ds : List Char) : Int :=
  ds.foldl (fun acc c => acc * 10 + digitVal c) 0

/-! ## Calendar arithmetic

`datetime.strptime(s, "%Y-%m-%d")` and the `datetime`/epoch conversions used by
the membership aggregator. -/

/-- Gregorian leap-year rule (as used by `datetime`). -/
def isLeapYear (y : Int) : Bool := y % 4 = 0 && (y % 100 ≠ 0 || y % 400 = 0)

/-- Days in a month, for `datetime`'s day-of-month validation. -/
def daysInMonth (y m : Int) : Int :=
  if m = 2 then (if isLeapYear y then 29 else 28)
  else if m = 4 || m = 6 || m = 9 || m = 11 then 30
  else 31

/-- CPython `_strptime`'s `%m` field: regex `1[0-2]|0[1-9]|[1-9]`, alternatives
tried left to right. Returns the month and the unconsumed characters. -/
def parseMonthField : List Char → Option (Int × List Char)
  | '1' :: c :: rest =>
      if '0' ≤ c && c ≤ '2' then some (10 + digitVal c, rest)
      else some (1, c :: rest)
  | '0' :: c :: rest =>
      if '1' ≤ c && c ≤ '9' then some (digitVal c, rest)
      else none
  | c :: rest =>
      if '1' ≤ c && c ≤ '9' then some (digitVal c, rest) else none
  | [] => none

/-- CPython `_strptime`'s `%d` field: regex `3[01]|[12]\d|0[1-9]|[1-9]`. -/
def parseDayField : List Char → Option (Int × List Char)
  | '3' :: c :: rest =>
      if c = '0' || c = '1' then some (30 + digitVal c, rest)
      else some (3, c :: rest)
  | '0' :: c :: rest =>
      if '1' ≤ c && c ≤ '9' then some (digitVal c, rest)
      else none
  | c :: c2 :: rest =>
      if (c = '1' || c = '2') && isPyDigit c2 then
        some (digitVal c * 10 + digitVal c2, rest)
      else if '1' ≤ c && c ≤ '9' then some (digitVal c, c2 :: rest)
      else none
  | [c] => if '1' ≤ c && c ≤ '9' then some (digitVal c, []) else none
  | [] => none

/-- Embeds `datetime.strptime(s, "%Y-%m-%d")`: four year digits, dashes, the `%m` and
`%d` fields, the whole string consumed, then `datetime`'s range validation
(`1 ≤ year`, day within the month). `none` models the `ValueError`. -/
def strptimeYmd (s : String) : Option (Int × Int × Int) :=
  match s.data with
  | y1 :: y2 :: y3 :: y4 :: '-' :: rest =>
      if isPyDigit y1 && isPyDigit y2 && isPyDigit y3 && isPyDigit y4 then
        let y := digitsToInt [y1, y2, y3, y4]
        match parseMonthField rest with
        | some (m, '-' :: rest2) =>
            match parseDayField rest2 with
            | some (d, []) =>
                if 1 ≤ y && 1 ≤ d && d ≤ daysInMonth y m then some (y, m, d)
                else none
            | _ => none
        | _ => none
      else none
  | _ => none

/-- Lexicographic order on `(year, month, day)` triples, the order `datetime`
comparison induces on midnight datetimes. -/
def dateLe (a b : Int × Int × Int) : Bool :=
  a.1 < b.1 || (a.1 = b.1 && (a.2.1 < b.2.1 || (a.2.1 = b.2.1 && a.2.2 ≤ b.2.2)))

/-- Days from the civil epoch 1970-01-01 (Howard Hinnant's algorithm, floor
division form); the day count `datetime`/`fromtimestamp` conversions use. -/
def daysFromCivil (y m d : Int) : Int :=
  let y2 := if m ≤ 2 then y - 1 else y
  let era := y2.fdiv 400
  let yoe := y2 - era * 400
  let mp := if 2 < m then m - 3 else m + 9
  let doy := (153 * mp + 2).fdiv 5 + d - 1
  let doe := yoe * 365 + yoe.fdiv 4 - yoe.fdiv 100 + doy
  era * 146097 + doe - 719468

/-- First epoch millisecond of a year: `datetime(year, 1, 1)` in UTC. -/
def yearStartMs (y : Int) : Int := 86400000 * daysFromCivil y 1 1

/-- Last epoch millisecond not after `datetime(year, 12, 31, 23, 59, 59)`:
a timestamp `ms` has `fromtimestamp(ms / 1000) ≤ end_date` iff
`ms ≤ yearEndMs y`, fractional seconds exceeding the zero-microsecond bound. -/
def yearEndMs (y : Int) : Int := 1000 * (86400 * daysFromCivil y 12 31 + 86399)

/-! ## Data model (`app/models/*.py`)

Each structure carries exactly the fields its Pydantic model declares.  In
particular `MemberXPStats` (`app/models/hypixel.py:43-51`) declares **no**
`quest_participation` field; Pydantic's default `extra='ignore'` silently
drops the keyword argument the services pass for it, and reading the
attribute raises `AttributeError`. -/

/-- Embeds `GuildMember` (`app/models/hypixel.py:9-19`); `exp_history` is a dict in
insertion order. -/
structure GuildMember where
  uuid : String
  rank : String
  joined : Int
  exp_history : List (String × Int) := []
  quest_participation : Int := 0
deriving DecidableEq

/-- Embeds `MemberXPStats` (`app/models/hypixel.py:43-51`): note the absence of a
`quest_participation` field. -/
structure MemberXPStats where
  uuid : String
  username : String := "Unknown"
  total_xp : Int := 0
  joined_timestamp : Int
  joined_this_year : Bool := false
deriving DecidableEq

/-- Reading `.quest_participation` on a `MemberXPStats`: the model declares no
such field, so Pydantic raises `AttributeError`
(the constructor argument was dropped by `extra='ignore'`). -/
def MemberXPStats.quest_participation_attr (_ : MemberXPStats) :
    Except PyError Int := .error .attributeError

/-- Embeds `DiscordMessage` (`app/models/discord.py:10-17`). -/
structure DiscordMessage where
  author_id : Int
  author_name : String
  content : String
  mentions : List Int
  timestamp : String
deriving DecidableEq

/-- Embeds `UserMessageStats` (`app/models/discord.py:20-26`). -/
structure UserMessageStats where
  user_id : Int
  username : String
  message_count : Int := 0
  times_pinged : Int := 0
deriving DecidableEq

/-- Embeds `DiscordStats` (`app/models/discord.py:29-34`). -/
structure DiscordStats where
  total_messages : Int := 0
  user_stats : List UserMessageStats := []
  most_active_day : String := ""
deriving DecidableEq

/-- Embeds `WordleResult` (`app/models/wordle.py:9-15`). -/
structure WordleResult where
  author_name : String
  wordle_number : Int
  guesses : Int
  is_win : Bool
deriving DecidableEq

/-- Embeds `WordleUserStats` (`app/models/wordle.py:18-26`); the two float fields are
modelled as exact rationals. -/
structure WordleUserStats where
  username : String
  total_games : Int := 0
  wins : Int := 0
  losses : Int := 0
  win_rate : ℚ := 0
  average_guesses : ℚ := 0
deriving DecidableEq

/-- Embeds `WordleStats` (`app/models/wordle.py:29-35`). -/
structure WordleStats where
  total_games : Int := 0
  total_wins : Int := 0
  total_losses : Int := 0
  user_stats : List WordleUserStats := []
deriving DecidableEq

/-- Embeds `MemberWrappedStats` (`app/models/wrapped.py:12-23`). -/
structure MemberWrappedStats where
  uuid : String
  username : String
  guild_xp : Int := 0
  quest_participation : Int := 0
  discord_messages : Int := 0
  times_pinged : Int := 0
  joined_this_year : Bool := false
  joined_timestamp : Int := 0
  joined_date : String := ""
deriving DecidableEq, BEq

/-- Embeds `WrappedSummary` (`app/models/wrapped.py:26-52`). -/
structure WrappedSummary where
  year : Int
  guild_name : String := "Chizza Guild"
  total_members : Int := 0
  total_guild_xp : Int := 0
  total_messages : Int := 0
  new_members_count : Int := 0
  most_active_day : String := ""
  top_xp_earners : List MemberWrappedStats := []
  top_messengers : List MemberWrappedStats := []
  new_members : List MemberWrappedStats := []
  most_pinged : List MemberWrappedStats := []
  guild_veterans : List MemberWrappedStats := []
  wordle_top_winners : List WordleUserStats := []
  wordle_top_failures : List WordleUserStats := []
  total_wordle_games : Int := 0
  fun_facts : List String := []
deriving DecidableEq

/-! ## WordleService (`app/services/wordle_service.py`)

The two compiled patterns are
`RESULT_PATTERN = ([X\d])/6:\s*(<@\d+>(?:\s*<@\d+>)*)` and
`USER_MENTION_PATTERN = <@(\d+)>`.  Both are deterministic: every quantifier
is greedy over a character set disjoint from what follows it, so Python's
backtracking engine never revisits a choice, and the leftmost-match scan of
`finditer`/`findall` is an exhaustive left-to-right scan that resumes at the
end of each match. -/

namespace WordleService

/-- The character class `[X\d]` of `RESULT_PATTERN`'s first group. -/
def scoreTok (c : Char) : Bool := c = 'X' || isPyDigit c

/-- One `<@(\d+)>` mention token at the head of the input; returns the digit
group and the rest. -/
def parseMention : List Char → Option (List Char × List Char)
  | '<' :: '@' :: rest =>
      match rest.takeWhile isPyDigit, rest.dropWhile isPyDigit with
      | [], _ => none
      | ds, '>' :: tail => some (ds, tail)
      | _, _ => none
  | _ => none

/-- The greedy tail `(?:\s*<@\d+>)*`: repeatedly consume whitespace and one
mention; stop (consuming nothing) when no further mention follows.  Returns
the consumed characters and the rest; fuel bounds the iteration count. -/
def mentionTail : Nat → List Char → List Char × List Char
  | 0, s => ([], s)
  | fuel + 1, s =>
      let ws := s.takeWhile isPySpace
      match parseMention (s.dropWhile isPySpace) with
      | none => ([], s)
      | some (ds, rest) =>
          let (more, rest2) := mentionTail fuel rest
          (ws ++ '<' :: '@' :: ds ++ '>' :: more, rest2)

/-- Embeds `RESULT_PATTERN` anchored at the head of the input: on success returns the
score character (group 1), the mention block (group 2) and the rest of the
input after the match. -/
def matchResultAt : List Char → Option (Char × List Char × List Char)
  | c :: '/' :: '6' :: ':' :: rest =>
      if scoreTok c then
        match parseMention (rest.dropWhile isPySpace) with
        | none => none
        | some (ds, tail) =>
            let (more, rest2) := mentionTail tail.length tail
            some (c, '<' :: '@' :: ds ++ '>' :: more, rest2)
      else none
  | _ => none

/-- Embeds `RESULT_PATTERN.finditer`: left-to-right scan for non-overlapping matches,
resuming after each match. -/
def finditerResult : Nat → List Char → List (Char × List Char)
  | 0, _ => []
  | _ + 1, [] => []
  | fuel + 1, s@(_ :: rest) =>
      match matchResultAt s with
      | some (sc, g2, rest2) => (sc, g2) :: finditerResult fuel rest2
      | none => finditerResult fuel rest

/-- Embeds `USER_MENTION_PATTERN.findall`: all `<@(\d+)>` digit groups, scanning left
to right. -/
def findallMentions : Nat → List Char → List (List Char)
  | 0, _ => []
  | _ + 1, [] => []
  | fuel + 1, s@(_ :: rest) =>
      match parseMention s with
      | some (ds, rest2) => ds :: findallMentions fuel rest2
      | none => findallMentions fuel rest

/-- The `id_to_username` dict of `parse_wordle_results` (built by
comprehension, so a later entry for the same id overwrites an earlier one),
then `.get(user_id, f"User_{user_id}")`. -/
def idToUsername (user_stats : List UserMessageStats) (uid : String) : String :=
  match user_stats.reverse.find? (fun st => toString st.user_id = uid) with
  | some st => st.username
  | none => "User_" ++ uid

/-- Embeds `WordleService.parse_wordle_results`
(`app/services/wordle_service.py:20-69`). -/
def parse_wordle_results (messages : List DiscordMessage)
    (user_stats : List UserMessageStats) : List WordleResult :=
  let wordle_bot_msgs := messages.filter (fun m => pyLower m.author_name = "wordle")
  wordle_bot_msgs.flatMap fun msg =>
    (finditerResult msg.content.data.length msg.content.data).flatMap
      fun m =>
        let gw : Int × Bool :=
          if m.1 = 'X' then (7, false) else (digitVal m.1, true)
        (findallMentions m.2.length m.2).map fun ds =>
          let uid := String.mk ds
          { author_name := idToUsername user_stats uid
            wordle_number := 0
            guesses := gw.1
            is_win := gw.2 }

end WordleService

/-! ## Python dict key order: first-occurrence deduplication -/

/-- The keys of a Python dict built by inserting a sequence of keys, in
iteration order: each key at its first occurrence (structural form: keep the
head, deduplicate the tail, drop later copies of the head). -/
def firstOccur {α : Type} [DecidableEq α] : List α → List α
  | [] => []
  | x :: xs => x :: (firstOccur xs).filter (fun y => y ≠ x)

/-- Stable insertion for `pySorted`: `x` goes in front of the first element
it may precede. -/
def pyInsert {α : Type} (le : α → α → Bool) (x : α) : List α → List α
  | [] => [x]
  | b :: l => if le x b then x :: b :: l else b :: pyInsert le x l

/-- Python's `sorted(l, ...)` and `list.sort(...)` are stable sorts; a stable
sort is determined extensionally by its comparison, so the structural
insertion sort is the same function on lists as CPython's Timsort.  `le a b`
reads "`a` may come before `b`"; for `sorted(key=k)` it is `k a ≤ k b`, for
`sorted(key=k, reverse=True)` it is `k b ≤ k a`. -/
def pySorted {α : Type} (le : α → α → Bool) : List α → List α
  | [] => []
  | x :: xs => pyInsert le x (pySorted le xs)

namespace WordleService

/-- The per-user record `calculate_stats` builds for one group of results
(`app/services/wordle_service.py:88-109`). -/
def mkUserStats (username : String) (user_games : List WordleResult) :
    WordleUserStats :=
  let wins := user_games.filter (·.is_win)
  let losses := user_games.filter (fun g => ¬ g.is_win)
  let total_games : Int := user_games.length
  let win_count : Int := wins.length
  let loss_count : Int := losses.length
  let win_rate : ℚ :=
    if 0 < total_games then (win_count : ℚ) / (total_games : ℚ) * 100 else 0
  let avg_guesses : ℚ :=
    if wins ≠ [] then (wins.map (·.guesses)).sum / (wins.length : ℚ) else 0
  { username := username
    total_games := total_games
    wins := win_count
    losses := loss_count
    win_rate := round1 win_rate
    average_guesses := round2 avg_guesses }

/-- Embeds `WordleService.calculate_stats` (`app/services/wordle_service.py:71-116`):
group by author name in first-occurrence order (a `defaultdict`), make one
`WordleUserStats` per group, and total the results. -/
def calculate_stats (results : List WordleResult) : WordleStats :=
  let names := firstOccur (results.map (·.author_name))
  let user_stats := names.map fun n =>
    mkUserStats n (results.filter (·.author_name = n))
  { total_games := results.length
    total_wins := results.countP (·.is_win)
    total_losses := results.countP (fun r => ¬ r.is_win)
    user_stats := user_stats }

/-- The comparison realised by `sorted(qualified, key=lambda x: (x.wins,
x.win_rate), reverse=True)`: `a` may precede `b` iff `a`'s composite key is
at least `b`'s, lexicographically.  A stable sort under this relation is
exactly Python's stable descending sort. -/
def winnersLe (a b : WordleUserStats) : Bool :=
  b.wins < a.wins || (a.wins = b.wins && b.win_rate ≤ a.win_rate)

/-- Embeds `WordleService.get_top_winners`
(`app/services/wordle_service.py:118-140`). -/
def get_top_winners (stats : WordleStats) (limit : Nat := 5) :
    List WordleUserStats :=
  let qualified := stats.user_stats.filter (fun s => 0 < s.total_games)
  (pySorted winnersLe qualified).take limit

/-- Embeds `WordleService.get_top_failures`
(`app/services/wordle_service.py:142-164`). -/
def get_top_failures (stats : WordleStats) (limit : Nat := 5) :
    List WordleUserStats :=
  let with_losses := stats.user_stats.filter (fun s => 0 < s.losses)
  (pySorted (fun a b => b.losses ≤ a.losses) with_losses).take limit

/-- Embeds `WordleService.get_lowest_average`
(`app/services/wordle_service.py:166-188`). -/
def get_lowest_average (stats : WordleStats) (limit : Nat := 5)
    (min_games : Int := 3) : List WordleUserStats :=
  let qualified := stats.user_stats.filter
    (fun s => min_games ≤ s.total_games && 0 < s.wins)
  (pySorted (fun a b => a.average_guesses ≤ b.average_guesses) qualified).take limit

end WordleService

/-! ## HypixelService (`app/services/hypixel_service.py`) -/

namespace HypixelService

/-- The `expHistory` summation loop of `calculate_yearly_xp`
(`app/services/hypixel_service.py:91-100`): parse each date key with
`strptime`, skip the entry on `ValueError`, and add the XP of entries whose
date lies in `[datetime(year,1,1), datetime(year,12,31,23,59,59)]` (a midnight
date is in that interval iff it is between Jan 1 and Dec 31 inclusive). -/
def sumExpHistory (exp_history : List (String × Int)) (year : Int) : Int :=
  exp_history.foldl
    (fun total_xp entry =>
      match strptimeYmd entry.1 with
      | none => total_xp
      | some d =>
          if dateLe (year, 1, 1) d && dateLe d (year, 12, 31) then
            total_xp + entry.2
          else total_xp)
    0

/-- The per-member record built by `calculate_yearly_xp`'s loop
(`app/services/hypixel_service.py:90-114`).  The constructor call passes
`quest_participation=member.quest_participation`, but `MemberXPStats` declares
no such field and Pydantic drops the argument; `joined_this_year` compares
`datetime.fromtimestamp(member.joined / 1000)` (UTC model) with the year
bounds. -/
def memberEntry (member : GuildMember) (year : Int) : MemberXPStats :=
  { uuid := member.uuid
    total_xp := sumExpHistory member.exp_history year
    joined_timestamp := member.joined
    joined_this_year :=
      yearStartMs year ≤ member.joined && member.joined ≤ yearEndMs year }

/-- Python `list.sort(key=..., reverse=True)` with a key function that may
raise: the keys are computed first, in list order (so a raising key aborts
the sort before any reordering), then the list is sorted stably descending
by key. -/
def pySortDescByKey (key : MemberXPStats → Except PyError Int)
    (l : List MemberXPStats) : Except PyError (List MemberXPStats) := do
  let ks ← l.mapM key
  let pairs := l.zip ks
  pure ((pySorted (fun a b => b.2 ≤ a.2) pairs).map (·.1))

/-- Embeds `HypixelService.calculate_yearly_xp`
(`app/services/hypixel_service.py:72-119`): build the per-member entries, then
`member_stats.sort(key=lambda x: x.quest_participation, reverse=True)` — whose
key function reads the `quest_participation` attribute that `MemberXPStats`
does not have, raising `AttributeError` as soon as the list is nonempty. -/
def calculate_yearly_xp (members : List GuildMember) (year : Int) :
    Except PyError (List MemberXPStats) :=
  let member_stats := members.map (fun m => memberEntry m year)
  pySortDescByKey (fun x => x.quest_participation_attr) member_stats

end HypixelService

/-! ## DiscordService (`app/services/discord_service.py`) -/

namespace DiscordService

/-- The calendar-day key of a message: `msg.timestamp[:10]`. -/
def dayOf (msg : DiscordMessage) : String := strTake msg.timestamp 10

/-- Embeds `Counter.most_common(1)` on the day counter, whose keys iterate in
first-occurrence order: the stable maximum — a later day replaces the current
best only when its count is strictly greater. -/
def mostCommonDay (days : List String) : Option String :=
  match firstOccur days with
  | [] => none
  | k :: ks =>
      some (ks.foldl (fun best d => if days.count best < days.count d then d else best) k)

/-- Embeds `user_names.get(user_id, "Unknown")`: the display name from the most
recent authoring occurrence (dict writes overwrite). -/
def userNameOf (messages : List DiscordMessage) (uid : Int) : String :=
  match messages.reverse.find? (fun m => m.author_id = uid) with
  | some m => m.author_name
  | none => "Unknown"

/-- The id set `set(message_counts.keys()) | set(mention_counts.keys())`.
Python's set iteration order is unspecified; it is modelled as author ids in
first-appearance order followed by mention-only ids in first-appearance
order.  No claim checked here depends on the order of `user_stats`. -/
def allUserIds (messages : List DiscordMessage) : List Int :=
  let authors := firstOccur (messages.map (·.author_id))
  let mentioned := firstOccur (messages.flatMap (·.mentions))
  authors ++ mentioned.filter (fun i => ¬ authors.contains i)

/-- Embeds `DiscordService.calculate_stats`
(`app/services/discord_service.py:128-180`). -/
def calculate_stats (messages : List DiscordMessage) : DiscordStats :=
  let user_stats := (allUserIds messages).map fun uid =>
    { user_id := uid
      username := userNameOf messages uid
      message_count := ((messages.map (·.author_id)).count uid : Int)
      times_pinged := ((messages.flatMap (·.mentions)).count uid : Int) }
  { total_messages := messages.length
    user_stats := user_stats
    most_active_day := (mostCommonDay (messages.map dayOf)).getD "" }

end DiscordService

/-! ## AnalyticsService: `combine_stats` and `_generate_fun_facts`
(`app/services/analytics_service.py:23-191`) -/

/-- The inverse civil-calendar conversion (Howard Hinnant's `civil_from_days`,
floor-division form): epoch day count to `(year, month, day)`. -/
def civilFromDays (z0 : Int) : Int × Int × Int :=
  let z := z0 + 719468
  let era := z.fdiv 146097
  let doe := z - era * 146097
  let yoe := (doe - doe.fdiv 1460 + doe.fdiv 36524 - doe.fdiv 146096).fdiv 365
  let y := yoe + era * 400
  let doy := doe - (365 * yoe + yoe.fdiv 4 - yoe.fdiv 100)
  let mp := (5 * doy + 2).fdiv 153
  let d := doy - (153 * mp + 2).fdiv 5 + 1
  let m := if mp < 10 then mp + 3 else mp - 9
  (if m ≤ 2 then y + 1 else y, m, d)

/-- Zero-pad a nonnegative integer to two digits (`strftime` field). -/
def pad2 (n : Int) : String :=
  if n < 10 then "0" ++ toString n else toString n

/-- Zero-pad a nonnegative integer to four digits (`strftime` `%Y`). -/
def pad4 (n : Int) : String :=
  if n < 10 then "000" ++ toString n
  else if n < 100 then "00" ++ toString n
  else if n < 1000 then "0" ++ toString n
  else toString n

/-- Embeds `datetime.fromtimestamp(ms / 1000).strftime("%Y-%m-%d")` (UTC model),
as used for `joined_date` in `combine_stats`
(`app/services/analytics_service.py:52`). -/
def epochMsToDateStr (ms : Int) : String :=
  let days := (ms.fdiv 1000).fdiv 86400
  let (y, m, d) := civilFromDays days
  pad4 y ++ "-" ++ pad2 m ++ "-" ++ pad2 d

/-- Python's `f"{n:,}"` thousands-separated integer formatting. -/
def fmtComma (n : Int) : String :=
  let rec go : List Char → Nat → List Char
    | [], _ => []
    | c :: rest, k =>
        if k = 3 then ',' :: c :: go rest 1 else c :: go rest (k + 1)
  let ds := (toString n.natAbs).data.reverse
  (if n < 0 then "-" else "") ++ String.mk ((go ds 0).reverse)

namespace AnalyticsService

/-- Embeds `AnalyticsService._generate_fun_facts`
(`app/services/analytics_service.py:149-191`): one sentence per non-zero /
non-empty aggregate, in source order. -/
def generate_fun_facts (total_members total_xp total_messages
    new_members_count : Int) (most_active_day : String)
    (top_earner top_messenger : Option MemberWrappedStats) : List String :=
  let facts1 := if total_members ≠ 0 then
    [fmtComma total_members ++ " members strong!"] else []
  let facts2 := if total_xp ≠ 0 then
    [fmtComma total_xp ++ " total guild XP earned"] ++
      (if total_members ≠ 0 then
        [fmtComma (total_xp.fdiv total_members) ++ " average XP per member"]
      else [])
    else []
  let facts3 := if total_messages ≠ 0 then
    [fmtComma total_messages ++ " messages sent in Discord"] ++
      (if total_members ≠ 0 then
        [fmtComma (total_messages.fdiv total_members) ++ " average messages per member"]
      else [])
    else []
  let facts4 := if new_members_count ≠ 0 then
    [toString new_members_count ++ " new members joined this year"] else []
  let facts5 := if most_active_day ≠ "" then
    ["Most active day: " ++ most_active_day] else []
  let facts6 := match top_earner with
    | some e => if e.guild_xp ≠ 0 then
        [e.username ++ " earned the most XP: " ++ fmtComma e.guild_xp] else []
    | none => []
  let facts7 := match top_messenger with
    | some e => if e.discord_messages ≠ 0 then
        [e.username ++ " sent the most messages: " ++ fmtComma e.discord_messages]
      else []
    | none => []
  facts1 ++ facts2 ++ facts3 ++ facts4 ++ facts5 ++ facts6 ++ facts7

/-- The Discord-only entry built by `combine_stats`'s second loop
(`app/services/analytics_service.py:70-80`). -/
def discordOnlyEntry (us : UserMessageStats) : MemberWrappedStats :=
  { uuid := ""
    username := us.username
    guild_xp := 0
    discord_messages := us.message_count
    times_pinged := us.times_pinged }

/-- The ranking / aggregation / fun-fact tail of `combine_stats`
(`app/services/analytics_service.py:82-147`), from the two entry lists. -/
def composeSummary (combined_members discord_members : List MemberWrappedStats)
    (discord_stats : DiscordStats) (guild_name : String) (total_guild_xp : Int)
    (discord_messages : Option (List DiscordMessage)) (settingsYear : Int) :
    WrappedSummary :=
  let top_xp := (pySorted
    (fun a b => b.quest_participation ≤ a.quest_participation)
    combined_members).take 10
  let top_msg := (pySorted
    (fun a b => b.discord_messages ≤ a.discord_messages)
    discord_members).take 10
  let new_members := pySorted
    (fun a b => b.joined_timestamp ≤ a.joined_timestamp)
    (combined_members.filter (·.joined_this_year))
  let most_pinged := ((pySorted
    (fun a b => b.times_pinged ≤ a.times_pinged) discord_members).take
      10).filter (fun m => 0 < m.times_pinged)
  let guild_veterans := ((pySorted
    (fun a b => a.joined_timestamp ≤ b.joined_timestamp)
    (combined_members.filter (fun m => 0 < m.joined_timestamp))).take 12)
  let total_xp := if 0 < total_guild_xp then total_guild_xp
    else (combined_members.map (·.guild_xp)).sum
  let total_members : Int := combined_members.length
  let new_members_count : Int := new_members.length
  let (wordle_top_winners, wordle_top_failures, total_wordle_games) :=
    match discord_messages with
    | some msgs =>
        if msgs ≠ [] then
          let wordle_results :=
            WordleService.parse_wordle_results msgs discord_stats.user_stats
          let wordle_stats := WordleService.calculate_stats wordle_results
          (WordleService.get_top_winners wordle_stats 5,
           WordleService.get_top_failures wordle_stats 5,
           wordle_stats.total_games)
        else ([], [], 0)
    | none => ([], [], 0)
  let fun_facts := generate_fun_facts total_members total_xp
    discord_stats.total_messages new_members_count
    discord_stats.most_active_day top_xp.head? top_msg.head?
  { year := settingsYear
    guild_name := guild_name
    total_members := total_members
    total_guild_xp := total_xp
    total_messages := discord_stats.total_messages
    new_members_count := new_members_count
    most_active_day := discord_stats.most_active_day
    top_xp_earners := top_xp
    top_messengers := top_msg
    new_members := new_members
    most_pinged := most_pinged
    guild_veterans := guild_veterans
    wordle_top_winners := wordle_top_winners
    wordle_top_failures := wordle_top_failures
    total_wordle_games := total_wordle_games
    fun_facts := fun_facts }

/-- Embeds `AnalyticsService.combine_stats`
(`app/services/analytics_service.py:23-147`).  The first loop evaluates
`hypixel_member.quest_participation` (line 59) — an attribute
`MemberXPStats` does not have — so the call raises `AttributeError` whenever
`hypixel_stats` is nonempty; `settings.year` is passed explicitly. -/
def combine_stats (hypixel_stats : List MemberXPStats)
    (discord_stats : DiscordStats) (guild_name : String := "Chizza Guild")
    (total_guild_xp : Int := 0)
    (discord_messages : Option (List DiscordMessage) := none)
    (settingsYear : Int := 2025) : Except PyError WrappedSummary := do
  let combined_members : List MemberWrappedStats ← hypixel_stats.mapM fun hm => do
    let joined_date := epochMsToDateStr hm.joined_timestamp
    let qp ← hm.quest_participation_attr
    pure { uuid := hm.uuid
           username := hm.username
           guild_xp := hm.total_xp
           quest_participation := qp
           joined_this_year := hm.joined_this_year
           joined_timestamp := hm.joined_timestamp
           joined_date := joined_date }
  let discord_members := discord_stats.user_stats.map discordOnlyEntry
  pure (composeSummary combined_members discord_members discord_stats
    guild_name total_guild_xp discord_messages settingsYear)

end AnalyticsService

/-! ## SummaryStore: schema (`scripts/init_db.py:11-70`) and
`save_to_database` / `load_from_database`
(`app/services/analytics_service.py:193-436`)

The three tables are modelled as row lists plus one `AUTOINCREMENT` sequence
counter per table (SQLite's `AUTOINCREMENT` never reuses an id).  An `INSERT`
naming a column the `CREATE TABLE` did not declare raises
`sqlite3.OperationalError`; an uncommitted transaction is rolled back, so a
failing save leaves the stored state unchanged. -/

/-- A row of `wrapped_snapshots` (`scripts/init_db.py:21-29`). -/
structure SnapshotRow where
  id : Int
  year : Int
  hypixel_data_path : String
  discord_data_path : String
deriving DecidableEq

/-- A row of `member_stats` (`scripts/init_db.py:32-45`): exactly the declared
columns — there is no `quest_participation` column. -/
structure MemberStatsRow where
  id : Int
  snapshot_id : Int
  member_uuid : Option String := none
  member_name : Option String := none
  guild_xp : Int := 0
  discord_messages : Int := 0
  times_pinged : Int := 0
  joined_this_year : Bool := false
  joined_date : Option String := none
deriving DecidableEq

/-- A row of `guild_stats` (`scripts/init_db.py:54-65`). -/
structure GuildStatsRow where
  id : Int
  snapshot_id : Int
  total_members : Int := 0
  total_xp : Int := 0
  total_messages : Int := 0
  new_members_count : Int := 0
  most_active_day : String := ""
deriving DecidableEq

/-- The SQLite database state. -/
structure Database where
  wrapped_snapshots : List SnapshotRow
  member_stats : List MemberStatsRow
  guild_stats : List GuildStatsRow
  seq_snapshots : Int
  seq_member_stats : Int
  seq_guild_stats : Int
deriving DecidableEq

/-- Embeds `init_database` (`scripts/init_db.py:11-70`): empty tables, sequences
starting at 1. -/
def init_database : Database :=
  { wrapped_snapshots := []
    member_stats := []
    guild_stats := []
    seq_snapshots := 1
    seq_member_stats := 1
    seq_guild_stats := 1 }

/-- The columns `CREATE TABLE member_stats` declares
(`scripts/init_db.py:32-45`). -/
def member_stats_columns : List String :=
  ["id", "snapshot_id", "member_uuid", "member_name", "guild_xp",
   "discord_messages", "times_pinged", "joined_this_year", "joined_date"]

/-- The column list of the Hypixel-member `INSERT INTO member_stats`
(`app/services/analytics_service.py:224-226` and `246-248`). -/
def hypixelInsertColumns : List String :=
  ["snapshot_id", "member_uuid", "member_name", "guild_xp",
   "quest_participation", "joined_this_year", "joined_date"]

/-- The column list of the Discord-messenger `INSERT INTO member_stats`
(`app/services/analytics_service.py:265-267`). -/
def discordInsertColumns : List String :=
  ["snapshot_id", "member_name", "discord_messages", "times_pinged"]

/-- SQLite's check of an `INSERT` column list against the table schema:
naming an undeclared column raises
`OperationalError: table has no column named ...`. -/
def checkColumns (insertCols tableCols : List String) : Except SqlError Unit :=
  match insertCols.find? (fun c => ¬ tableCols.contains c) with
  | some c => .error (.noColumn c)
  | none => .ok ()

namespace AnalyticsService

/-- One Hypixel-member `INSERT INTO member_stats` of `save_to_database`
(`app/services/analytics_service.py:221-259`), threading the row list and the
id sequence.  The column list names `quest_participation`, which the schema
does not declare, so the statement itself raises; the row value (which drops
that binding) is never reached. -/
def insertHypixelMember (snapshot_id : Int)
    (acc : List MemberStatsRow × Int) (member : MemberWrappedStats) :
    Except SqlError (List MemberStatsRow × Int) := do
  checkColumns hypixelInsertColumns member_stats_columns
  pure (acc.1 ++
    [{ id := acc.2
       snapshot_id := snapshot_id
       member_uuid := some member.uuid
       member_name := some member.username
       guild_xp := member.guild_xp
       joined_this_year := member.joined_this_year
       joined_date := some member.joined_date }], acc.2 + 1)

/-- One Discord-messenger `INSERT INTO member_stats` of `save_to_database`
(`app/services/analytics_service.py:262-275`); omitted columns take their
schema defaults (`guild_xp 0`, `joined_this_year 0`, NULLs). -/
def insertDiscordMember (snapshot_id : Int)
    (acc : List MemberStatsRow × Int) (member : MemberWrappedStats) :
    Except SqlError (List MemberStatsRow × Int) := do
  checkColumns discordInsertColumns member_stats_columns
  pure (acc.1 ++
    [{ id := acc.2
       snapshot_id := snapshot_id
       member_name := some member.username
       discord_messages := member.discord_messages
       times_pinged := member.times_pinged }], acc.2 + 1)

/-- Embeds `AnalyticsService.save_to_database`
(`app/services/analytics_service.py:193-297`).

* `INSERT OR REPLACE INTO wrapped_snapshots` under the `UNIQUE` year: the
  conflicting old row is deleted and a fresh row is inserted under a **new**
  `AUTOINCREMENT` id, which `cursor.lastrowid` returns.
* `DELETE FROM member_stats WHERE snapshot_id = ?` then runs against that
  fresh id.
* Member rows are inserted for top XP earners, then new members not already
  among the earners (Python `in`, i.e. field equality), then top messengers.
* `INSERT OR REPLACE INTO guild_stats` has no uniqueness constraint to
  conflict with, so it always inserts a fresh row.
An error rolls the uncommitted transaction back (the caller's database is
unchanged). -/
def save_to_database (db : Database) (summary : WrappedSummary) :
    Except SqlError Database := do
  let snapshot_id := db.seq_snapshots
  let snapshots :=
    db.wrapped_snapshots.filter (fun r => r.year ≠ summary.year) ++
      [{ id := snapshot_id
         year := summary.year
         hypixel_data_path :=
           "data/cache/" ++ toString summary.year ++ "/hypixel_guild.json"
         discord_data_path :=
           "data/cache/" ++ toString summary.year ++ "/discord_messages.json" }]
  let member0 := db.member_stats.filter (fun r => r.snapshot_id ≠ snapshot_id)
  let acc1 ← summary.top_xp_earners.foldlM
    (insertHypixelMember snapshot_id) (member0, db.seq_member_stats)
  let acc2 ← (summary.new_members.filter
      (fun m => ¬ summary.top_xp_earners.contains m)).foldlM
    (insertHypixelMember snapshot_id) acc1
  let acc3 ← summary.top_messengers.foldlM
    (insertDiscordMember snapshot_id) acc2
  let gRow : GuildStatsRow :=
    { id := db.seq_guild_stats
      snapshot_id := snapshot_id
      total_members := summary.total_members
      total_xp := summary.total_guild_xp
      total_messages := summary.total_messages
      new_members_count := summary.new_members_count
      most_active_day := summary.most_active_day }
  pure { wrapped_snapshots := snapshots
         member_stats := acc3.1
         guild_stats := db.guild_stats ++ [gRow]
         seq_snapshots := snapshot_id + 1
         seq_member_stats := acc3.2
         seq_guild_stats := db.seq_guild_stats + 1 }

end AnalyticsService

/-! ### `load_from_database` -/

/-- A SQLite value as surfaced by `sqlite3.Row`. -/
inductive SqlValue where
  | nullV
  | intV (i : Int)
  | textV (s : String)
deriving DecidableEq

/-- Python `value or 0` on a column value. -/
def SqlValue.orZero : SqlValue → Int
  | .intV i => i
  | _ => 0

/-- Python `value or ""` on a column value. -/
def SqlValue.orEmpty : SqlValue → String
  | .textV s => s
  | _ => ""

/-- Python `bool(value)` on a column value. -/
def SqlValue.toBool : SqlValue → Bool
  | .intV i => i ≠ 0
  | .textV s => s ≠ ""
  | .nullV => false

/-- Embeds `sqlite3.Row` key lookup on a `member_stats` row (the columns of
`SELECT *`, i.e. the schema columns of `scripts/init_db.py:32-45`); an
unknown key raises `IndexError`. -/
def MemberStatsRow.lookup (r : MemberStatsRow) (col : String) :
    Except PyError SqlValue :=
  if col = "id" then .ok (.intV r.id)
  else if col = "snapshot_id" then .ok (.intV r.snapshot_id)
  else if col = "member_uuid" then
    .ok (match r.member_uuid with | some s => .textV s | none => .nullV)
  else if col = "member_name" then
    .ok (match r.member_name with | some s => .textV s | none => .nullV)
  else if col = "guild_xp" then .ok (.intV r.guild_xp)
  else if col = "discord_messages" then .ok (.intV r.discord_messages)
  else if col = "times_pinged" then .ok (.intV r.times_pinged)
  else if col = "joined_this_year" then
    .ok (.intV (if r.joined_this_year then 1 else 0))
  else if col = "joined_date" then
    .ok (match r.joined_date with | some s => .textV s | none => .nullV)
  else .error .indexError

namespace AnalyticsService

/-- The per-row reconstruction loop of `load_from_database`
(`app/services/analytics_service.py:341-365`): re-derive `joined_timestamp`
from `joined_date` (0 on any parse failure), then build a
`MemberWrappedStats` — whose constructor-argument evaluation reads
`m["quest_participation"]`, a key `SELECT * FROM member_stats` does not
produce, raising `IndexError`. -/
def rowToMember (m : MemberStatsRow) : Except PyError MemberWrappedStats := do
  let jdV ← m.lookup "joined_date"
  let joined_timestamp : Int :=
    if jdV.toBool then
      match strptimeYmd jdV.orEmpty with
      | some (y, mo, d) => 86400000 * daysFromCivil y mo d
      | none => 0
    else 0
  let uuidV ← m.lookup "member_uuid"
  let nameV ← m.lookup "member_name"
  let xpV ← m.lookup "guild_xp"
  let qpV ← m.lookup "quest_participation"
  let dmV ← m.lookup "discord_messages"
  let tpV ← m.lookup "times_pinged"
  let jtyV ← m.lookup "joined_this_year"
  pure { uuid := uuidV.orEmpty
         username := nameV.orEmpty
         guild_xp := xpV.orZero
         quest_participation := qpV.orZero
         discord_messages := dmV.orZero
         times_pinged := tpV.orZero
         joined_this_year := jtyV.toBool
         joined_timestamp := joined_timestamp
         joined_date := jdV.orEmpty }

/-- The user-stats deduplication of `load_from_database`
(`app/services/analytics_service.py:409-410`): keep the first occurrence of
each `user_id`. -/
def dedupByUserId : List UserMessageStats → List Int → List UserMessageStats
  | [], _ => []
  | x :: xs, seen =>
      if seen.contains x.user_id then dedupByUserId xs seen
      else x :: dedupByUserId xs (x.user_id :: seen)

/-- Embeds `AnalyticsService.load_from_database`
(`app/services/analytics_service.py:299-436`).  `cachedMessages` stands for
what `DiscordService.load_cached_messages(year)` returns (the on-disk message
cache, an external collaborator); the Wordle block is wrapped in
`try/except`, so a failure there degrades to empty game statistics. -/
def load_from_database (db : Database) (year : Int)
    (cachedMessages : List DiscordMessage := []) :
    Except PyError (Option WrappedSummary) := do
  match db.wrapped_snapshots.find? (fun s => s.year = year) with
  | none => pure none
  | some snapshot => do
    let guild_stats := db.guild_stats.find? (fun g => g.snapshot_id = snapshot.id)
    let members := pySorted (fun a b => b.guild_xp ≤ a.guild_xp)
      (db.member_stats.filter (fun m => m.snapshot_id = snapshot.id))
    let all_members ← members.mapM rowToMember
    let top_xp := ((pySorted
      (fun a b => b.quest_participation ≤ a.quest_participation)
      all_members).take 10).filter (fun m => 0 < m.quest_participation)
    let top_msg := (pySorted
      (fun a b => b.discord_messages ≤ a.discord_messages) all_members).take 10
    let new_members := pySorted
      (fun a b => decide (b.joined_date ≤ a.joined_date))
      (all_members.filter (·.joined_this_year))
    let most_pinged := ((pySorted
      (fun a b => b.times_pinged ≤ a.times_pinged) all_members).take
        10).filter (fun m => 0 < m.times_pinged)
    let guild_veterans := ((pySorted
      (fun a b => a.joined_timestamp ≤ b.joined_timestamp)
      (all_members.filter (fun m => 0 < m.joined_timestamp))).take 12)
    let (wordle_top_winners, wordle_top_failures, total_wordle_games) :=
      if cachedMessages ≠ [] then
        let user_stats := dedupByUserId
          (cachedMessages.map fun m =>
            { user_id := m.author_id
              username := m.author_name
              message_count := 0
              times_pinged := 0 }) []
        let wordle_results :=
          WordleService.parse_wordle_results cachedMessages user_stats
        let ws := WordleService.calculate_stats wordle_results
        (WordleService.get_top_winners ws 5,
         WordleService.get_top_failures ws 5, ws.total_games)
      else ([], [], 0)
    pure (some
      { year := year
        total_members := match guild_stats with | some g => g.total_members | none => 0
        total_guild_xp := match guild_stats with | some g => g.total_xp | none => 0
        total_messages := match guild_stats with | some g => g.total_messages | none => 0
        new_members_count := match guild_stats with | some g => g.new_members_count | none => 0
        most_active_day := match guild_stats with | some g => g.most_active_day | none => ""
        top_xp_earners := top_xp
        top_messengers := top_msg
        new_members := new_members
        most_pinged := most_pinged
        guild_veterans := guild_veterans
        wordle_top_winners := wordle_top_winners
        wordle_top_failures := wordle_top_failures
        total_wordle_games := total_wordle_games })

end AnalyticsService

/-! ## A heap model for the frame-effect claim

Python passes collections by reference, so "never mutates its input
collections" is a statement about the caller's heap.  Here a heap maps
references to collection objects; the three aggregation entry points named by
the claim are embedded statement by statement: every Python operation that
writes through a reference (`defaultdict` item updates, `list.append`) is a
heap write, and every collection a function creates (`[]`, a comprehension,
`sorted(...)`) is a fresh allocation. -/

/-- A Python collection object. -/
inductive PyObj where
  | msgList (l : List DiscordMessage)
  | xpList (l : List MemberXPStats)
  | userStatsList (l : List UserMessageStats)
  | resList (l : List WordleResult)
  | wrapList (l : List MemberWrappedStats)
  | resGroups (l : List (String × List WordleResult))
  | wuStatsList (l : List WordleUserStats)
  | intCounter (l : List (Int × Int))
  | nameDict (l : List (Int × String))
  | dayCounter (l : List (String × Int))

/-- A heap of Python collection objects: allocated cells below `next`. -/
structure Heap where
  mem : Nat → Option PyObj
  next : Nat

/-- Allocation of a fresh object. -/
def Heap.alloc (h : Heap) (v : PyObj) : Heap × Nat :=
  (⟨fun r => if r = h.next then some v else h.mem r, h.next + 1⟩, h.next)

/-- An in-place write through a reference. -/
def Heap.write (h : Heap) (r : Nat) (v : PyObj) : Heap :=
  ⟨fun q => if q = r then some v else h.mem q, h.next⟩

/-- The monad of the embedded Python statements: exceptions over heap state
(a raised exception does not undo prior heap writes). -/
abbrev PyM (α : Type) : Type := ExceptT PyError (StateM Heap) α

/-- Run an embedded computation on a heap. -/
def runPyM {α : Type} (m : PyM α) (h : Heap) : Except PyError α × Heap :=
  (ExceptT.run m).run h

/-- Allocate a fresh object, returning its reference. -/
def allocM (v : PyObj) : PyM Nat :=
  ExceptT.mk fun h => (Except.ok (h.alloc v).2, (h.alloc v).1)

/-- Write through a reference. -/
def writeM (r : Nat) (v : PyObj) : PyM Unit :=
  ExceptT.mk fun h => (Except.ok (), h.write r v)

/-- Read through a reference, projecting the expected collection kind; a
dangling reference or a kind mismatch cannot arise in the embedded calls and
is surfaced as an error. -/
def readWith {α : Type} (f : PyObj → Option α) (r : Nat) : PyM α :=
  ExceptT.mk fun h =>
    ((match h.mem r with
      | some v =>
          match f v with
          | some x => Except.ok x
          | none => Except.error .valueError
      | none => Except.error .valueError), h)

def readMsgList : Nat → PyM (List DiscordMessage) :=
  readWith fun v => match v with | .msgList l => some l | _ => none

def readXpList : Nat → PyM (List MemberXPStats) :=
  readWith fun v => match v with | .xpList l => some l | _ => none

def readUserStatsList : Nat → PyM (List UserMessageStats) :=
  readWith fun v => match v with | .userStatsList l => some l | _ => none

def readResList : Nat → PyM (List WordleResult) :=
  readWith fun v => match v with | .resList l => some l | _ => none

def readWrapList : Nat → PyM (List MemberWrappedStats) :=
  readWith fun v => match v with | .wrapList l => some l | _ => none

def readResGroups : Nat → PyM (List (String × List WordleResult)) :=
  readWith fun v => match v with | .resGroups l => some l | _ => none

def readIntCounter : Nat → PyM (List (Int × Int)) :=
  readWith fun v => match v with | .intCounter l => some l | _ => none

def readNameDict : Nat → PyM (List (Int × String)) :=
  readWith fun v => match v with | .nameDict l => some l | _ => none

def readDayCounter : Nat → PyM (List (String × Int)) :=
  readWith fun v => match v with | .dayCounter l => some l | _ => none

def readWuStatsList : Nat → PyM (List WordleUserStats) :=
  readWith fun v => match v with | .wuStatsList l => some l | _ => none

/-! ### Dict primitives (insertion-order association lists) -/

/-- Embeds `d[k] += 1` on a `defaultdict(int)` / `Counter`: update in place, or
append the key with count 1. -/
def bumpCount {κ : Type} [DecidableEq κ] (l : List (κ × Int)) (k : κ) :
    List (κ × Int) :=
  if l.any (fun p => p.1 = k) then
    l.map (fun p => if p.1 = k then (p.1, p.2 + 1) else p)
  else l ++ [(k, 1)]

/-- Embeds `d[k] = v` on a dict: overwrite in place, or append the new key. -/
def setKey {κ ν : Type} [DecidableEq κ] (l : List (κ × ν)) (k : κ) (v : ν) :
    List (κ × ν) :=
  if l.any (fun p => p.1 = k) then
    l.map (fun p => if p.1 = k then (p.1, v) else p)
  else l ++ [(k, v)]

/-- Embeds `d.get(k, default)`. -/
def getKey {κ ν : Type} [DecidableEq κ] (l : List (κ × ν)) (k : κ) (d : ν) : ν :=
  match l.find? (fun p => p.1 = k) with
  | some p => p.2
  | none => d

/-- Embeds `user_results[name].append(r)` on a `defaultdict(list)`. -/
def appendGroup (l : List (String × List WordleResult)) (k : String)
    (r : WordleResult) : List (String × List WordleResult) :=
  if l.any (fun p => p.1 = k) then
    l.map (fun p => if p.1 = k then (p.1, p.2 ++ [r]) else p)
  else l ++ [(k, [r])]

/-! ### The three heap-level embeddings named by the frame-effect claim -/

namespace DiscordService

/-- Embeds `DiscordService.calculate_stats` over the caller's heap
(`app/services/discord_service.py:128-180`): the four working dicts are fresh
allocations; the message loop and the `user_stats.append` loop write only to
them; the input message list is only read. -/
def calculate_stats_heap (messagesRef : Nat) : PyM DiscordStats := do
  let message_countsR ← allocM (.intCounter [])
  let mention_countsR ← allocM (.intCounter [])
  let user_namesR ← allocM (.nameDict [])
  let day_countsR ← allocM (.dayCounter [])
  let messages ← readMsgList messagesRef
  messages.forM fun msg => do
    let mc ← readIntCounter message_countsR
    writeM message_countsR (.intCounter (bumpCount mc msg.author_id))
    let un ← readNameDict user_namesR
    writeM user_namesR (.nameDict (setKey un msg.author_id msg.author_name))
    msg.mentions.forM fun mid => do
      let ments ← readIntCounter mention_countsR
      writeM mention_countsR (.intCounter (bumpCount ments mid))
    let dc ← readDayCounter day_countsR
    writeM day_countsR (.dayCounter (bumpCount dc (strTake msg.timestamp 10)))
  let message_counts ← readIntCounter message_countsR
  let mention_counts ← readIntCounter mention_countsR
  let user_names ← readNameDict user_namesR
  let day_counts ← readDayCounter day_countsR
  let user_statsR ← allocM (.userStatsList [])
  let all_user_ids :=
    message_counts.map (·.1) ++
      (mention_counts.map (·.1)).filter
        (fun i => ¬ (message_counts.map (·.1)).contains i)
  all_user_ids.forM fun uid => do
    let us ← readUserStatsList user_statsR
    writeM user_statsR (.userStatsList (us ++
      [{ user_id := uid
         username := getKey user_names uid "Unknown"
         message_count := getKey message_counts uid 0
         times_pinged := getKey mention_counts uid 0 }]))
  let user_stats ← readUserStatsList user_statsR
  let most_active_day :=
    match day_counts with
    | [] => ""
    | k :: ks => (ks.foldl (fun best d => if best.2 < d.2 then d else best) k).1
  pure { total_messages := messages.length
         user_stats := user_stats
         most_active_day := most_active_day }

end DiscordService

namespace WordleService

/-- Embeds `WordleService.calculate_stats` over the caller's heap
(`app/services/wordle_service.py:71-116`): the `defaultdict(list)` and the
`user_stats` list are fresh; the grouping loop appends through them; the
input result list is only read. -/
def calculate_stats_heap (resultsRef : Nat) : PyM WordleStats := do
  let user_resultsR ← allocM (.resGroups [])
  let results ← readResList resultsRef
  results.forM fun r => do
    let groups ← readResGroups user_resultsR
    writeM user_resultsR (.resGroups (appendGroup groups r.author_name r))
  let user_results ← readResGroups user_resultsR
  let user_statsR ← allocM (.wuStatsList [])
  user_results.forM fun g => do
    let us ← readWuStatsList user_statsR
    writeM user_statsR (.wuStatsList (us ++ [mkUserStats g.1 g.2]))
  let user_stats ← readWuStatsList user_statsR
  pure { total_games := results.length
         total_wins := results.countP (·.is_win)
         total_losses := results.countP (fun r => ¬ r.is_win)
         user_stats := user_stats }

end WordleService

namespace AnalyticsService

/-- Embeds `AnalyticsService.combine_stats` over the caller's heap
(`app/services/analytics_service.py:23-147`): the two entry lists are fresh
allocations filled by the two loops (the first of which raises
`AttributeError` on its first iteration, after which no heap write has
targeted an input); everything from the `sorted(...)` ranking block on
allocates fresh collections, modelled by the pure `composeSummary`. -/
def combine_stats_heap (hypixelRef userStatsRef : Nat)
    (total_messages : Int) (most_active_day : String)
    (guild_name : String := "Chizza Guild") (total_guild_xp : Int := 0)
    (messagesRef : Option Nat := none) (settingsYear : Int := 2025) :
    PyM WrappedSummary := do
  let hypixel_stats ← readXpList hypixelRef
  let user_stats ← readUserStatsList userStatsRef
  let combinedR ← allocM (.wrapList [])
  hypixel_stats.forM fun hm => do
    let joined_date := epochMsToDateStr hm.joined_timestamp
    let qp ← match hm.quest_participation_attr with
      | .ok v => pure v
      | .error e => throw e
    let cm ← readWrapList combinedR
    writeM combinedR (.wrapList (cm ++
      [{ uuid := hm.uuid
         username := hm.username
         guild_xp := hm.total_xp
         quest_participation := qp
         joined_this_year := hm.joined_this_year
         joined_timestamp := hm.joined_timestamp
         joined_date := joined_date }]))
  let combined_members ← readWrapList combinedR
  let discordR ← allocM (.wrapList [])
  user_stats.forM fun us => do
    let dm ← readWrapList discordR
    writeM discordR (.wrapList (dm ++ [discordOnlyEntry us]))
  let discord_members ← readWrapList discordR
  let discord_messages ← match messagesRef with
    | none => pure none
    | some r => do
        let msgs ← readMsgList r
        pure (some msgs)
  pure (composeSummary combined_members discord_members
    { total_messages := total_messages
      user_stats := user_stats
      most_active_day := most_active_day }
    guild_name total_guild_xp discord_messages settingsYear)

end AnalyticsService

/-! ### Frame reasoning

`FrameSpec n m post`: run from any heap whose allocation frontier is at least
`n`; then no cell below `n` is changed (even when an exception escapes), the
frontier stays at least `n`, and a normally returned value satisfies `post`. -/

def FrameSpec {α : Type} (n : Nat) (m : PyM α) (post : α → Prop) : Prop :=
  ∀ h : Heap, n ≤ h.next →
    n ≤ (runPyM m h).2.next ∧
    (∀ r, r < n → (runPyM m h).2.mem r = h.mem r) ∧
    ∀ a, (runPyM m h).1 = .ok a → post a

theorem runPyM_pure {α : Type} (a : α) (h : Heap) :
    runPyM (pure a) h = (.ok a, h) := rfl

theorem runPyM_throw {α : Type} (e : PyError) (h : Heap) :
    runPyM (throw e : PyM α) h = (.error e, h) := rfl

theorem runPyM_bind {α β : Type} (m : PyM α) (f : α → PyM β) (h : Heap) :
    runPyM (m >>= f) h =
      match runPyM m h with
      | (.ok a, h2) => runPyM (f a) h2
      | (.error e, h2) => (.error e, h2) := by
  show runPyM (ExceptT.bind m f) h = _
  unfold runPyM ExceptT.bind ExceptT.mk ExceptT.bindCont
  cases hr : (ExceptT.run m).run h with
  | mk res h2 =>
      cases res <;>
        simp_all [ExceptT.run, StateT.run, bind, StateT.bind, pure,
          StateT.pure]

theorem frameSpec_pure {α : Type} {n : Nat} {post : α → Prop} (a : α)
    (hp : post a) : FrameSpec n (pure a) post := by
  intro h hn
  rw [show runPyM (pure a) h = (.ok a, h) from rfl]
  refine ⟨hn, fun _ _ => rfl, ?_⟩
  intro b hb
  injection hb with hb2
  exact hb2 ▸ hp

theorem frameSpec_throw {α : Type} {n : Nat} {post : α → Prop} (e : PyError) :
    FrameSpec n (throw e : PyM α) post := by
  intro h hn
  simp [runPyM_throw, hn]

theorem frameSpec_bind {α β : Type} {n : Nat} {m : PyM α} {f : α → PyM β}
    {p : α → Prop} {q : β → Prop} (hm : FrameSpec n m p)
    (hf : ∀ a, p a → FrameSpec n (f a) q) : FrameSpec n (m >>= f) q := by
  intro h hn
  have h1 := hm h hn
  rw [runPyM_bind]
  cases hr : runPyM m h with
  | mk res h2 =>
      rw [hr] at h1
      cases res with
      | ok a =>
          have hpa : p a := h1.2.2 a rfl
          have h3 := hf a hpa h2 h1.1
          refine ⟨h3.1, ?_, h3.2.2⟩
          intro r hrn
          rw [h3.2.1 r hrn, h1.2.1 r hrn]
      | error e => exact ⟨h1.1, h1.2.1, by intro a hb; cases hb⟩

theorem frameSpec_weaken {α : Type} {n : Nat} {m : PyM α} {p q : α → Prop}
    (hm : FrameSpec n m p) (hpq : ∀ a, p a → q a) : FrameSpec n m q := by
  intro h hn
  have h1 := hm h hn
  exact ⟨h1.1, h1.2.1, fun a ha => hpq a (h1.2.2 a ha)⟩

theorem frameSpec_alloc {n : Nat} (v : PyObj) :
    FrameSpec n (allocM v) (fun r => n ≤ r) := by
  intro h hn
  rw [show runPyM (allocM v) h = (.ok h.next, (h.alloc v).1) from rfl]
  refine ⟨?_, ?_, ?_⟩
  · show n ≤ h.next + 1
    omega
  · intro r hrn
    show (if r = h.next then some v else h.mem r) = h.mem r
    have : r ≠ h.next := by omega
    simp [this]
  · intro a ha
    injection ha with ha2
    exact ha2 ▸ hn

theorem frameSpec_write {n : Nat} {r : Nat} (v : PyObj) (hr : n ≤ r) :
    FrameSpec n (writeM r v) (fun _ => True) := by
  intro h hn
  rw [show runPyM (writeM r v) h = (.ok (), h.write r v) from rfl]
  refine ⟨hn, ?_, fun _ _ => trivial⟩
  intro q hq
  show (if q = r then some v else h.mem q) = h.mem q
  have : q ≠ r := by omega
  simp [this]

theorem frameSpec_readWith {α : Type} {n : Nat} (f : PyObj → Option α)
    (r : Nat) : FrameSpec n (readWith f r) (fun _ => True) := by
  intro h hn
  exact ⟨hn, fun _ _ => rfl, fun _ _ => trivial⟩

theorem frameSpec_forM {α : Type} {n : Nat} {f : α → PyM PUnit}
    (l : List α) (hf : ∀ x ∈ l, FrameSpec n (f x) (fun _ => True)) :
    FrameSpec n (l.forM f) (fun _ => True) := by
  induction l with
  | nil => exact frameSpec_pure _ trivial
  | cons x xs ih =>
      rw [List.forM_cons']
      exact frameSpec_bind (hf x (by simp))
        (fun _ _ => ih (fun y hy => hf y (by simp [hy])))

theorem frame_discord_calculate_stats (n msgsRef : Nat) :
    FrameSpec n (DiscordService.calculate_stats_heap msgsRef)
      (fun _ => True) := by
  unfold DiscordService.calculate_stats_heap
  refine frameSpec_bind (frameSpec_alloc _) (fun mcR hmcR => ?_)
  refine frameSpec_bind (frameSpec_alloc _) (fun mnR hmnR => ?_)
  refine frameSpec_bind (frameSpec_alloc _) (fun unR hunR => ?_)
  refine frameSpec_bind (frameSpec_alloc _) (fun dcR hdcR => ?_)
  refine frameSpec_bind (frameSpec_readWith _ _) (fun messages _ => ?_)
  refine frameSpec_bind (frameSpec_forM _ (fun msg _ => ?_)) (fun _ _ => ?_)
  · refine frameSpec_bind (frameSpec_readWith _ _) (fun mc _ => ?_)
    refine frameSpec_bind (frameSpec_write _ hmcR) (fun _ _ => ?_)
    refine frameSpec_bind (frameSpec_readWith _ _) (fun un _ => ?_)
    refine frameSpec_bind (frameSpec_write _ hunR) (fun _ _ => ?_)
    refine frameSpec_bind (frameSpec_forM _ (fun mid _ => ?_)) (fun _ _ => ?_)
    · refine frameSpec_bind (frameSpec_readWith _ _) (fun ments _ => ?_)
      exact frameSpec_write _ hmnR
    · refine frameSpec_bind (frameSpec_readWith _ _) (fun dc _ => ?_)
      exact frameSpec_write _ hdcR
  · refine frameSpec_bind (frameSpec_readWith _ _) (fun message_counts _ => ?_)
    refine frameSpec_bind (frameSpec_readWith _ _) (fun mention_counts _ => ?_)
    refine frameSpec_bind (frameSpec_readWith _ _) (fun user_names _ => ?_)
    refine frameSpec_bind (frameSpec_readWith _ _) (fun day_counts _ => ?_)
    refine frameSpec_bind (frameSpec_alloc _) (fun usR husR => ?_)
    refine frameSpec_bind (frameSpec_forM _ (fun uid _ => ?_)) (fun _ _ => ?_)
    · refine frameSpec_bind (frameSpec_readWith _ _) (fun us _ => ?_)
      exact frameSpec_write _ husR
    · refine frameSpec_bind (frameSpec_readWith _ _) (fun user_stats _ => ?_)
      exact frameSpec_pure _ trivial

theorem frame_wordle_calculate_stats (n resultsRef : Nat) :
    FrameSpec n (WordleService.calculate_stats_heap resultsRef)
      (fun _ => True) := by
  unfold WordleService.calculate_stats_heap
  refine frameSpec_bind (frameSpec_alloc _) (fun urR hurR => ?_)
  refine frameSpec_bind (frameSpec_readWith _ _) (fun results _ => ?_)
  refine frameSpec_bind (frameSpec_forM _ (fun r _ => ?_)) (fun _ _ => ?_)
  · refine frameSpec_bind (frameSpec_readWith _ _) (fun groups _ => ?_)
    exact frameSpec_write _ hurR
  · refine frameSpec_bind (frameSpec_readWith _ _) (fun user_results _ => ?_)
    refine frameSpec_bind (frameSpec_alloc _) (fun usR husR => ?_)
    refine frameSpec_bind (frameSpec_forM _ (fun g _ => ?_)) (fun _ _ => ?_)
    · refine frameSpec_bind (frameSpec_readWith _ _) (fun us _ => ?_)
      exact frameSpec_write _ husR
    · refine frameSpec_bind (frameSpec_readWith _ _) (fun user_stats _ => ?_)
      exact frameSpec_pure _ trivial

theorem frame_combine_stats (n hypixelRef userStatsRef : Nat)
    (total_messages : Int) (most_active_day guild_name : String)
    (total_guild_xp : Int) (messagesRef : Option Nat) (settingsYear : Int) :
    FrameSpec n (AnalyticsService.combine_stats_heap hypixelRef userStatsRef
      total_messages most_active_day guild_name total_guild_xp messagesRef
      settingsYear) (fun _ => True) := by
  unfold AnalyticsService.combine_stats_heap
  refine frameSpec_bind (frameSpec_readWith _ _) (fun hypixel_stats _ => ?_)
  refine frameSpec_bind (frameSpec_readWith _ _) (fun user_stats _ => ?_)
  refine frameSpec_bind (frameSpec_alloc _) (fun combinedR hcombinedR => ?_)
  refine frameSpec_bind (frameSpec_forM _ (fun hm _ => ?_)) (fun _ _ => ?_)
  · simp only [MemberXPStats.quest_participation_attr]
    exact frameSpec_bind (frameSpec_throw _) (fun a ha => False.elim ha)
  · refine frameSpec_bind (frameSpec_readWith _ _) (fun combined_members _ => ?_)
    refine frameSpec_bind (frameSpec_alloc _) (fun discordR hdiscordR => ?_)
    refine frameSpec_bind (frameSpec_forM _ (fun us _ => ?_)) (fun _ _ => ?_)
    · refine frameSpec_bind (frameSpec_readWith _ _) (fun dm _ => ?_)
      exact frameSpec_write _ hdiscordR
    · refine frameSpec_bind (frameSpec_readWith _ _) (fun discord_members _ => ?_)
      cases messagesRef with
      | none =>
          exact frameSpec_bind (@frameSpec_pure _ _ (fun _ => True) _ trivial)
            (fun dm _ => frameSpec_pure _ trivial)
      | some r =>
          refine frameSpec_bind (frameSpec_readWith _ _) (fun msgs _ => ?_)
          exact frameSpec_bind (@frameSpec_pure _ _ (fun _ => True) _ trivial)
            (fun dm _ => frameSpec_pure _ trivial)

/-! ### Properties of the result-pattern extractor -/

theorem matchResultAt_scoreTok {s : List Char} {sc : Char}
    {g2 r2 : List Char}
    (h : WordleService.matchResultAt s = some (sc, g2, r2)) :
    WordleService.scoreTok sc = true := by
  rw [WordleService.matchResultAt.eq_def] at h
  split at h
  · rename_i c rest
    split at h
    · rename_i hTok
      split at h
      · exact absurd h (by simp)
      · rename_i ds tail hpm
        split at h
        injection h with h2
        cases h2
        exact hTok
    · exact absurd h (by simp)
  · exact absurd h (by simp)

theorem finditer_scoreTok :
    ∀ (fuel : Nat) (s : List Char) (p : Char × List Char),
      p ∈ WordleService.finditerResult fuel s →
      WordleService.scoreTok p.1 = true := by
  intro fuel
  induction fuel with
  | zero =>
      intro s p hp
      simp [WordleService.finditerResult] at hp
  | succ n ih =>
      intro s p hp
      cases s with
      | nil => simp [WordleService.finditerResult] at hp
      | cons c rest =>
          rw [WordleService.finditerResult] at hp
          cases hm : WordleService.matchResultAt (c :: rest) with
          | none =>
              rw [hm] at hp
              exact ih rest p hp
          | some t =>
              obtain ⟨sc, g2, r2⟩ := t
              rw [hm] at hp
              cases hp with
              | head => exact matchResultAt_scoreTok hm
              | tail _ htl => exact ih r2 p htl

/-- Claim C3, amended:  Every `GameResultEvent` the extractor emits is shaped
by the score token the pattern matched: a loss is recorded exactly as the
sentinel `guesses = 7` (from the failure marker `X`), and a win records the
numeric value of the matched digit, which `[X\d]` constrains only to `0–9`
(not `1–6`): a result line whose score token is any digit matches the
grammar and emits events. -/
theorem claim_C3_amended (messages : List DiscordMessage)
    (user_stats : List UserMessageStats) (r : WordleResult)
    (hr : r ∈ WordleService.parse_wordle_results messages user_stats) :
    (r.is_win = false → r.guesses = 7) ∧
    (r.is_win = true → 0 ≤ r.guesses ∧ r.guesses ≤ 9) := by
  unfold WordleService.parse_wordle_results at hr
  simp only [List.mem_flatMap, List.mem_map] at hr
  obtain ⟨msg, hmsg, m, hm, ds, hds, hrev⟩ := hr
  have hTok := finditer_scoreTok _ _ m hm
  subst hrev
  by_cases hX : m.1 = 'X'
  · simp [hX]
  · simp only [hX, if_neg, ite_false]
    have hd : isPyDigit m.1 = true := by
      unfold WordleService.scoreTok at hTok
      simpa [hX] using hTok
    unfold isPyDigit at hd
    simp only [Bool.and_eq_true, decide_eq_true_eq] at hd
    have h1 : 48 ≤ m.1.toNat := hd.1
    have h2 : m.1.toNat ≤ 57 := hd.2
    refine ⟨by simp, fun _ => ?_⟩
    unfold digitVal
    constructor <;> [skip; skip] <;> simp <;> omega

/-- Claim C3, counterexample:  A result line whose score token is the digit
`0` — outside `1–6` — does match the pattern: the message `"0/6: <@1>"` from
the reporter `Wordle` emits one event, with `guesses = 0` and the win flag
set, contradicting both "guess count is a digit 1–6 … or exactly the sentinel
7 with the win flag false" and "matches the grammar for no event". -/
theorem claim_C3_counterexample :
    WordleService.parse_wordle_results
      [{ author_id := 1, author_name := "Wordle", content := "0/6: <@1>",
         mentions := [], timestamp := "2025-01-01T00:00:00" }] [] =
      [{ author_name := "User_1", wordle_number := 0, guesses := 0,
         is_win := true }] := by decide

/-- Claim C3, witness:  The amended theorem applied to the concrete message
`"3/6: <@1>"`. -/
theorem claim_C3_amended_witness :
    ({ author_name := "User_1", wordle_number := 0, guesses := 3,
       is_win := true } : WordleResult) ∈
      WordleService.parse_wordle_results
        [{ author_id := 1, author_name := "Wordle", content := "3/6: <@1>",
           mentions := [], timestamp := "2025-01-01T00:00:00" }] [] ∧
    ((({ author_name := "User_1", wordle_number := 0, guesses := 3,
         is_win := true } : WordleResult).is_win = false →
        ({ author_name := "User_1", wordle_number := 0, guesses := 3,
           is_win := true } : WordleResult).guesses = 7) ∧
      (({ author_name := "User_1", wordle_number := 0, guesses := 3,
          is_win := true } : WordleResult).is_win = true →
        0 ≤ ({ author_name := "User_1", wordle_number := 0, guesses := 3,
               is_win := true } : WordleResult).guesses ∧
        ({ author_name := "User_1", wordle_number := 0, guesses := 3,
           is_win := true } : WordleResult).guesses ≤ 9)) :=
  ⟨by decide,
   claim_C3_amended
     [{ author_id := 1, author_name := "Wordle", content := "3/6: <@1>",
        mentions := [], timestamp := "2025-01-01T00:00:00" }] []
     { author_name := "User_1", wordle_number := 0, guesses := 3,
       is_win := true } (by decide)⟩

/-- Claim C5:  The extractor on the spec's concrete examples: the reporter
message `"Wordle 402 3/6: <@111>"` emits exactly one event for identity 111
with `guesses = 3` and `is_win = true`; with score `X` it emits `guesses = 7`
and `is_win = false`; and one result line mentioning three users emits
exactly three events sharing the same `guesses` and `is_win`. -/
theorem claim_C5_extractor_examples :
    WordleService.parse_wordle_results
        [{ author_id := 99, author_name := "Wordle",
           content := "Wordle 402 3/6: <@111>", mentions := [],
           timestamp := "2025-01-05T08:00:00" }] [] =
      [{ author_name := "User_111", wordle_number := 0, guesses := 3,
         is_win := true }] ∧
    WordleService.parse_wordle_results
        [{ author_id := 99, author_name := "Wordle",
           content := "Wordle 402 X/6: <@111>", mentions := [],
           timestamp := "2025-01-05T08:00:00" }] [] =
      [{ author_name := "User_111", wordle_number := 0, guesses := 7,
         is_win := false }] ∧
    WordleService.parse_wordle_results
        [{ author_id := 99, author_name := "Wordle",
           content := "2/6: <@1> <@2> <@3>", mentions := [],
           timestamp := "2025-01-05T08:00:00" }] [] =
      [{ author_name := "User_1", wordle_number := 0, guesses := 2,
         is_win := true },
       { author_name := "User_2", wordle_number := 0, guesses := 2,
         is_win := true },
       { author_name := "User_3", wordle_number := 0, guesses := 2,
         is_win := true }] := by
  refine ⟨by decide, by decide, by decide⟩

/-! ### The stable sort: permutation, sortedness, stability -/

theorem pyInsert_perm {α : Type} (le : α → α → Bool) (x : α) (l : List α) :
    (pyInsert le x l).Perm (x :: l) := by
  induction l with
  | nil => exact List.Perm.refl _
  | cons b l ih =>
      unfold pyInsert
      by_cases h : le x b = true
      · simp [h]
      · simp only [h]
        rw [if_neg (by simp [h])]
        exact (ih.cons b).trans (List.Perm.swap x b l)

theorem pySorted_perm {α : Type} (le : α → α → Bool) (l : List α) :
    (pySorted le l).Perm l := by
  induction l with
  | nil => exact List.Perm.refl _
  | cons x xs ih =>
      exact (pyInsert_perm le x (pySorted le xs)).trans (ih.cons x)

theorem mem_pySorted {α : Type} {le : α → α → Bool} {l : List α} {a : α} :
    a ∈ pySorted le l ↔ a ∈ l :=
  (pySorted_perm le l).mem_iff

/-- Embeds `pyInsert` splits the list at the first element `x` may precede. -/
theorem pyInsert_decomp {α : Type} (le : α → α → Bool) (x : α) (l : List α) :
    ∃ l₁ l₂, l = l₁ ++ l₂ ∧ pyInsert le x l = l₁ ++ x :: l₂ ∧
      ∀ b ∈ l₁, le x b = false := by
  induction l with
  | nil => exact ⟨[], [], rfl, rfl, by simp⟩
  | cons b l ih =>
      by_cases h : le x b = true
      · exact ⟨[], b :: l, rfl, by simp [pyInsert, h], by simp⟩
      · obtain ⟨l₁, l₂, he, hi, hb⟩ := ih
        refine ⟨b :: l₁, l₂, by simp [he], ?_, ?_⟩
        · simp only [pyInsert, if_neg h, hi, List.cons_append]
        · intro c hc
          rcases List.mem_cons.mp hc with rfl | hc2
          · simpa using h
          · exact hb c hc2

theorem sorted_pyInsert {α : Type} {le : α → α → Bool}
    (trans : ∀ a b c, le a b = true → le b c = true → le a c = true)
    (total : ∀ a b, (le a b || le b a) = true) (x : α) {l : List α}
    (h : l.Pairwise (fun a b => le a b = true)) :
    (pyInsert le x l).Pairwise (fun a b => le a b = true) := by
  induction l with
  | nil => simp [pyInsert]
  | cons b l ih =>
      rcases List.pairwise_cons.mp h with ⟨hb, hl⟩
      by_cases hxb : le x b = true
      · rw [pyInsert, if_pos hxb]
        refine List.pairwise_cons.mpr ⟨?_, h⟩
        intro y hy
        rcases List.mem_cons.mp hy with rfl | hy2
        · exact hxb
        · exact trans x b y hxb (hb y hy2)
      · rw [pyInsert, if_neg hxb]
        refine List.pairwise_cons.mpr ⟨?_, ih hl⟩
        intro y hy
        rcases List.mem_cons.mp ((pyInsert_perm le x l).mem_iff.mp hy) with
          rfl | h1
        · have htot := total y b
          rw [Bool.or_eq_true] at htot
          rcases htot with h2 | h2
          · exact absurd h2 hxb
          · exact h2
        · exact hb y h1

theorem sorted_pySorted {α : Type} {le : α → α → Bool}
    (trans : ∀ a b c, le a b = true → le b c = true → le a c = true)
    (total : ∀ a b, (le a b || le b a) = true) (l : List α) :
    (pySorted le l).Pairwise (fun a b => le a b = true) := by
  induction l with
  | nil => simp [pySorted]
  | cons x xs ih => exact sorted_pyInsert trans total x ih

/-- Stability of `pySorted`: a sublist whose elements are pairwise allowed to
stay in their order survives sorting as a sublist. -/
theorem sublist_pySorted {α : Type} {le : α → α → Bool} :
    ∀ {c l : List α}, c.Pairwise (fun a b => le a b = true) →
      List.Sublist c l → List.Sublist c (pySorted le l) := by
  intro c l
  induction l generalizing c with
  | nil =>
      intro _ hs
      have := List.sublist_nil.mp hs
      subst this
      exact List.nil_sublist _
  | cons x xs ih =>
      intro hc hs
      obtain ⟨l₁, l₂, he, hi, hb⟩ := pyInsert_decomp le x (pySorted le xs)
      rcases List.sublist_cons_iff.mp hs with hs2 | ⟨c2, rfl, hs2⟩
      · have hcs : List.Sublist c (pySorted le xs) := ih hc hs2
        show List.Sublist c (pyInsert le x (pySorted le xs))
        rw [hi]
        rw [he] at hcs
        exact hcs.trans ((List.sublist_cons_self x l₂).append_left l₁)
      · rcases List.pairwise_cons.mp hc with ⟨hxc, hc2⟩
        have hcs : List.Sublist c2 (pySorted le xs) := ih hc2 hs2
        rw [he] at hcs
        rcases List.sublist_append_iff.mp hcs with ⟨c3, c4, hce, h3, h4⟩
        have hc3 : c3 = [] := by
          cases c3 with
          | nil => rfl
          | cons a c5 =>
              exfalso
              have hmem : a ∈ l₁ := h3.mem (by simp)
              have hfalse : le x a = false := hb a hmem
              have ha2 : a ∈ c2 := by
                rw [hce]
                exact List.mem_append_left _ (by simp)
              have htrue : le x a = true := hxc a ha2
              rw [hfalse] at htrue
              cases htrue
        subst hc3
        simp only [List.nil_append] at hce
        subst hce
        show List.Sublist (x :: c2) (pyInsert le x (pySorted le xs))
        rw [hi]
        exact List.Sublist.trans (h4.cons₂ x) (List.sublist_append_right l₁ _)

/-! ### The top-winners ranking -/

theorem winnersLe_trans (a b c : WordleUserStats)
    (hab : WordleService.winnersLe a b = true)
    (hbc : WordleService.winnersLe b c = true) :
    WordleService.winnersLe a c = true := by
  unfold WordleService.winnersLe at *
  simp only [Bool.or_eq_true, Bool.and_eq_true, decide_eq_true_eq] at *
  rcases hab with h1 | ⟨h1, h1r⟩ <;> rcases hbc with h2 | ⟨h2, h2r⟩
  · exact Or.inl (by omega)
  · exact Or.inl (by omega)
  · exact Or.inl (by omega)
  · exact Or.inr ⟨by omega, le_trans h2r h1r⟩

theorem winnersLe_total (a b : WordleUserStats) :
    (WordleService.winnersLe a b || WordleService.winnersLe b a) = true := by
  unfold WordleService.winnersLe
  simp only [Bool.or_eq_true, Bool.and_eq_true, decide_eq_true_eq]
  rcases lt_trichotomy a.wins b.wins with h | h | h
  · exact Or.inr (Or.inl h)
  · rcases le_total a.win_rate b.win_rate with hr | hr
    · exact Or.inr (Or.inr ⟨h.symm, hr⟩)
    · exact Or.inl (Or.inr ⟨h, hr⟩)
  · exact Or.inl (Or.inl h)

/-- Claim C6:  `get_top_winners` returns only players drawn from the input with
at least one game; the result is sorted descending by the composite key
`(wins, win_rate)` (so more wins always rank higher, and equal win counts
break toward the higher win rate); and for any fixed key the result lists
fully tied players as a prefix of their encounter order among qualified
players. -/
theorem claim_C6_top_winners (stats : WordleStats) (limit : Nat) :
    (∀ u ∈ WordleService.get_top_winners stats limit,
        u ∈ stats.user_stats ∧ 1 ≤ u.total_games) ∧
    (WordleService.get_top_winners stats limit).Pairwise
      (fun a b => WordleService.winnersLe a b = true) ∧
    (WordleService.get_top_winners stats limit).Pairwise
      (fun a b => b.wins ≤ a.wins) ∧
    (∀ (w : Int) (q : ℚ), ∃ t,
      (WordleService.get_top_winners stats limit).filter
          (fun u => u.wins = w && u.win_rate = q) ++ t =
        (stats.user_stats.filter (fun s => 0 < s.total_games)).filter
          (fun u => u.wins = w && u.win_rate = q)) := by
  unfold WordleService.get_top_winners
  have hsorted := sorted_pySorted winnersLe_trans winnersLe_total
    (stats.user_stats.filter (fun s => 0 < s.total_games))
  refine ⟨?_, ?_, ?_, ?_⟩
  · intro u hu
    have hu2 : u ∈ pySorted WordleService.winnersLe
        (stats.user_stats.filter (fun s => 0 < s.total_games)) :=
      List.take_sublist _ _ |>.mem hu
    rw [mem_pySorted] at hu2
    have := List.of_mem_filter hu2
    refine ⟨List.mem_of_mem_filter hu2, by simpa using this⟩
  · exact hsorted.sublist (List.take_sublist _ _)
  · refine List.Pairwise.imp ?_ (hsorted.sublist (List.take_sublist _ _))
    intro a b hab
    unfold WordleService.winnersLe at hab
    simp only [Bool.or_eq_true, Bool.and_eq_true, decide_eq_true_eq] at hab
    rcases hab with h | ⟨h, _⟩ <;> omega
  · intro w q
    set p : WordleUserStats → Bool :=
      fun u => u.wins = w && u.win_rate = q with hp
    set qual := stats.user_stats.filter (fun s => 0 < s.total_games) with hq
    have hclass : (pySorted WordleService.winnersLe qual).filter p =
        qual.filter p := by
      have hcp : (qual.filter p).Pairwise
          (fun a b => WordleService.winnersLe a b = true) := by
        refine List.pairwise_of_forall_mem_list ?_
        intro a ha b hb
        have ha2 := List.of_mem_filter ha
        have hb2 := List.of_mem_filter hb
        rw [hp] at ha2 hb2
        simp only [Bool.and_eq_true, decide_eq_true_eq] at ha2 hb2
        unfold WordleService.winnersLe
        simp only [Bool.or_eq_true, Bool.and_eq_true, decide_eq_true_eq]
        exact Or.inr ⟨by omega, by rw [ha2.2, hb2.2]⟩
      have hsub : List.Sublist (qual.filter p)
          (pySorted WordleService.winnersLe qual) :=
        sublist_pySorted hcp (List.filter_sublist _)
      have hsub2 : List.Sublist (qual.filter p)
          ((pySorted WordleService.winnersLe qual).filter p) := by
        have := hsub.filter p
        rwa [List.filter_filter, show (fun a => p a && p a) = p from
          funext (fun a => Bool.and_self (p a))] at this
      refine (hsub2.eq_of_length ?_).symm
      rw [← List.countP_eq_length_filter, ← List.countP_eq_length_filter]
      exact ((pySorted_perm WordleService.winnersLe qual).countP_eq p).symm
    refine ⟨((pySorted WordleService.winnersLe qual).drop limit).filter p, ?_⟩
    show ((pySorted WordleService.winnersLe qual).take limit).filter p ++ _ = _
    rw [← List.filter_append, List.take_append_drop, hclass]

/-- Claim C6, witness:  The theorem applied to the spec's example: player A
with 3 wins in 3 games (100% win rate) against player B with 4 wins in 5
games (80%): B ranks first on win count alone. -/
theorem claim_C6_top_winners_witness :
    (∀ u ∈ WordleService.get_top_winners
        { total_games := 8, total_wins := 7, total_losses := 1
          user_stats :=
            [{ username := "A", total_games := 3, wins := 3, losses := 0,
               win_rate := 100, average_guesses := 3 },
             { username := "B", total_games := 5, wins := 4, losses := 1,
               win_rate := 80, average_guesses := 3 }] } 5,
      u ∈ [({ username := "A", total_games := 3, wins := 3, losses := 0,
              win_rate := 100, average_guesses := 3 } : WordleUserStats),
           { username := "B", total_games := 5, wins := 4, losses := 1,
             win_rate := 80, average_guesses := 3 }] ∧ 1 ≤ u.total_games) ∧
    WordleService.get_top_winners
        { total_games := 8, total_wins := 7, total_losses := 1
          user_stats :=
            [{ username := "A", total_games := 3, wins := 3, losses := 0,
               win_rate := 100, average_guesses := 3 },
             { username := "B", total_games := 5, wins := 4, losses := 1,
               win_rate := 80, average_guesses := 3 }] } 5 =
      [{ username := "B", total_games := 5, wins := 4, losses := 1,
         win_rate := 80, average_guesses := 3 },
       { username := "A", total_games := 3, wins := 3, losses := 0,
         win_rate := 100, average_guesses := 3 }] :=
  ⟨(claim_C6_top_winners
      { total_games := 8, total_wins := 7, total_losses := 1
        user_stats :=
          [{ username := "A", total_games := 3, wins := 3, losses := 0,
             win_rate := 100, average_guesses := 3 },
           { username := "B", total_games := 5, wins := 4, losses := 1,
             win_rate := 80, average_guesses := 3 }] } 5).1,
   by decide⟩

/-! ### The most-active-day statistic -/

theorem mem_firstOccur {α : Type} [DecidableEq α] {a : α} :
    ∀ {l : List α}, a ∈ firstOccur l ↔ a ∈ l := by
  intro l
  induction l with
  | nil => simp [firstOccur]
  | cons x xs ih =>
      simp only [firstOccur, List.mem_cons, List.mem_filter, ih,
        decide_eq_true_eq]
      by_cases h : a = x
      · simp [h]
      · simp [h, ih]

theorem find?_filter_superset {α : Type} (p q : α → Bool)
    (hpq : ∀ a, p a = true → q a = true) :
    ∀ l : List α, (l.filter q).find? p = l.find? p := by
  intro l
  induction l with
  | nil => rfl
  | cons a l ih =>
      by_cases hq : q a = true
      · rw [List.filter_cons_of_pos hq]
        by_cases hp : p a = true
        · rw [List.find?_cons_of_pos _ hp, List.find?_cons_of_pos _ hp]
        · rw [List.find?_cons_of_neg _ (by simp [hp]),
            List.find?_cons_of_neg _ (by simp [hp])]
          exact ih
      · rw [List.filter_cons_of_neg (by simp [hq])]
        have hp : ¬ p a = true := fun hpa => hq (hpq a hpa)
        rw [List.find?_cons_of_neg _ (by simp [hp])]
        exact ih

theorem find?_firstOccur {α : Type} [DecidableEq α] (p : α → Bool) :
    ∀ l : List α, (firstOccur l).find? p = l.find? p := by
  intro l
  induction l with
  | nil => rfl
  | cons x xs ih =>
      show ((x :: (firstOccur xs).filter (fun y => y ≠ x)).find? p) = _
      by_cases hp : p x = true
      · rw [List.find?_cons_of_pos _ hp, List.find?_cons_of_pos _ hp]
      · rw [List.find?_cons_of_neg _ (by simp [hp]),
          List.find?_cons_of_neg _ (by simp [hp])]
        rw [← ih]
        exact find?_filter_superset p (fun y => y ≠ x)
          (fun a ha => by
            simp only [ne_eq, decide_eq_true_eq]
            intro heq
            rw [heq] at ha
            exact hp ha) (firstOccur xs)

/-- The stable-maximum fold of `Counter.most_common(1)`: the result has the
largest count, and it is the first element of the scanned list attaining that
count. -/
theorem pickMax_spec {α : Type} (cnt : α → Nat) :
    ∀ (ks : List α) (k : α),
      (cnt k ≤ cnt (ks.foldl (fun best d =>
          if cnt best < cnt d then d else best) k) ∧
        ∀ x ∈ ks, cnt x ≤ cnt (ks.foldl (fun best d =>
          if cnt best < cnt d then d else best) k)) ∧
      (k :: ks).find? (fun x => cnt x = cnt (ks.foldl (fun best d =>
          if cnt best < cnt d then d else best) k)) =
        some (ks.foldl (fun best d => if cnt best < cnt d then d else best) k) := by
  intro ks
  induction ks with
  | nil =>
      intro k
      refine ⟨⟨le_refl _, by simp⟩, ?_⟩
      rw [List.find?_cons_of_pos _ (by simp)]
      rfl
  | cons d ks2 ih =>
      intro k
      rw [List.foldl_cons]
      by_cases hkd : cnt k < cnt d
      · rw [if_pos (by simpa using hkd)]
        obtain ⟨⟨h1, h2⟩, h3⟩ := ih d
        refine ⟨⟨le_of_lt (lt_of_lt_of_le hkd h1), ?_⟩, ?_⟩
        · intro x hx
          rcases List.mem_cons.mp hx with rfl | hx2
          · exact h1
          · exact h2 x hx2
        · rw [List.find?_cons_of_neg _ (by
            simp only [decide_eq_true_eq]
            omega)]
          exact h3
      · rw [if_neg (by simpa using hkd)]
        obtain ⟨⟨h1, h2⟩, h3⟩ := ih k
        push_neg at hkd
        refine ⟨⟨h1, ?_⟩, ?_⟩
        · intro x hx
          rcases List.mem_cons.mp hx with rfl | hx2
          · exact le_trans hkd h1
          · exact h2 x hx2
        · by_cases hpk : cnt k = cnt (ks2.foldl (fun best d =>
              if cnt best < cnt d then d else best) k)
          · rw [List.find?_cons_of_pos _ (by simpa using hpk)] at h3 ⊢
            exact h3
          · rw [List.find?_cons_of_neg _ (by simpa using hpk)] at h3
            rw [List.find?_cons_of_neg _ (by simpa using hpk)]
            rw [List.find?_cons_of_neg _ (by
              simp only [decide_eq_true_eq]
              omega)]
            exact h3

set_option maxHeartbeats 1600000 in
/-- Claim C7:  For every non-empty message sequence, the most-active-day
statistic is a calendar day occurring among the messages' date portions, no
day has a strictly higher message count, and it is the first-encountered day
(in scan order) among the days attaining that count. -/
theorem claim_C7_most_active_day (messages : List DiscordMessage)
    (hne : messages ≠ []) :
    (DiscordService.calculate_stats messages).most_active_day ∈
        messages.map DiscordService.dayOf ∧
    (∀ x ∈ messages.map DiscordService.dayOf,
      (messages.map DiscordService.dayOf).count x ≤
        (messages.map DiscordService.dayOf).count
          (DiscordService.calculate_stats messages).most_active_day) ∧
    (messages.map DiscordService.dayOf).find?
        (fun x => (messages.map DiscordService.dayOf).count x =
          (messages.map DiscordService.dayOf).count
            (DiscordService.calculate_stats messages).most_active_day) =
      some (DiscordService.calculate_stats messages).most_active_day := by
  obtain ⟨m0, ms, rfl⟩ := List.exists_cons_of_ne_nil hne
  set mad := (DiscordService.calculate_stats (m0 :: ms)).most_active_day
    with hmad
  have heq : mad =
      (((firstOccur (ms.map DiscordService.dayOf)).filter
          (fun y => y ≠ DiscordService.dayOf m0)).foldl
        (fun best d =>
          if ((m0 :: ms).map DiscordService.dayOf).count best <
              ((m0 :: ms).map DiscordService.dayOf).count d
          then d else best) (DiscordService.dayOf m0)) := rfl
  have hfo : firstOccur ((m0 :: ms).map DiscordService.dayOf) =
      DiscordService.dayOf m0 ::
        (firstOccur (ms.map DiscordService.dayOf)).filter
          (fun y => y ≠ DiscordService.dayOf m0) := rfl
  obtain ⟨⟨h1, h2⟩, h3⟩ := pickMax_spec
    (fun x => ((m0 :: ms).map DiscordService.dayOf).count x)
    ((firstOccur (ms.map DiscordService.dayOf)).filter
      (fun y => y ≠ DiscordService.dayOf m0))
    (DiscordService.dayOf m0)
  rw [← heq] at h1 h2 h3
  refine ⟨?_, ?_, ?_⟩
  · have hmem := List.mem_of_find?_eq_some h3
    rw [← hfo] at hmem
    exact mem_firstOccur.mp hmem
  · intro x hx
    have hx2 : x ∈ firstOccur ((m0 :: ms).map DiscordService.dayOf) :=
      mem_firstOccur.mpr hx
    rw [hfo] at hx2
    rcases List.mem_cons.mp hx2 with rfl | hx3
    · exact h1
    · exact h2 x hx3
  · rw [← find?_firstOccur, hfo]
    exact h3

/-- Claim C7, witness:  The theorem applied to three messages on 2025-03-01
and one on 2025-03-02, together with the concrete evaluation: the most active
day is `"2025-03-01"`. -/
theorem claim_C7_most_active_day_witness :
    (DiscordService.calculate_stats
      [{ author_id := 1, author_name := "a", content := "hi", mentions := [],
         timestamp := "2025-03-01T10:00:00" },
       { author_id := 2, author_name := "b", content := "yo", mentions := [],
         timestamp := "2025-03-02T09:00:00" },
       { author_id := 1, author_name := "a", content := "hm", mentions := [],
         timestamp := "2025-03-01T11:00:00" },
       { author_id := 3, author_name := "c", content := "ok", mentions := [],
         timestamp := "2025-03-01T12:00:00" }]).most_active_day =
      "2025-03-01" ∧
    (DiscordService.calculate_stats
      [{ author_id := 1, author_name := "a", content := "hi", mentions := [],
         timestamp := "2025-03-01T10:00:00" },
       { author_id := 2, author_name := "b", content := "yo", mentions := [],
         timestamp := "2025-03-02T09:00:00" },
       { author_id := 1, author_name := "a", content := "hm", mentions := [],
         timestamp := "2025-03-01T11:00:00" },
       { author_id := 3, author_name := "c", content := "ok", mentions := [],
         timestamp := "2025-03-01T12:00:00" }]).most_active_day ∈
      ([{ author_id := 1, author_name := "a", content := "hi", mentions := [],
          timestamp := "2025-03-01T10:00:00" },
        { author_id := 2, author_name := "b", content := "yo", mentions := [],
          timestamp := "2025-03-02T09:00:00" },
        { author_id := 1, author_name := "a", content := "hm", mentions := [],
          timestamp := "2025-03-01T11:00:00" },
        { author_id := 3, author_name := "c", content := "ok", mentions := [],
          timestamp := "2025-03-01T12:00:00" }] :
        List DiscordMessage).map DiscordService.dayOf :=
  ⟨by decide,
   (claim_C7_most_active_day
     [{ author_id := 1, author_name := "a", content := "hi", mentions := [],
        timestamp := "2025-03-01T10:00:00" },
      { author_id := 2, author_name := "b", content := "yo", mentions := [],
        timestamp := "2025-03-02T09:00:00" },
      { author_id := 1, author_name := "a", content := "hm", mentions := [],
        timestamp := "2025-03-01T11:00:00" },
      { author_id := 3, author_name := "c", content := "ok", mentions := [],
        timestamp := "2025-03-01T12:00:00" }] (by decide)).1⟩

/-! ### Counting invariants of the game-stats aggregator -/

theorem firstOccur_nodup {α : Type} [DecidableEq α] :
    ∀ l : List α, (firstOccur l).Nodup := by
  intro l
  induction l with
  | nil => exact List.nodup_nil
  | cons x xs ih =>
      refine List.nodup_cons.mpr ⟨?_, List.Nodup.filter _ ih⟩
      intro hmem
      have := (List.mem_filter.mp hmem).2
      simp at this

theorem filter_partition_length {β : Type} (p : β → Bool) (l : List β) :
    (l.filter p).length + (l.filter (fun x => !(p x))).length = l.length := by
  induction l with
  | nil => rfl
  | cons x xs ih =>
      by_cases h : p x = true
      · rw [List.filter_cons_of_pos h, List.filter_cons_of_neg (by simp [h])]
        simp only [List.length_cons]
        omega
      · rw [List.filter_cons_of_neg (by simp [h]),
          List.filter_cons_of_pos (by simp [h])]
        simp only [List.length_cons]
        omega

theorem groupSum_aux {α β : Type} [DecidableEq α] (key : β → α) :
    ∀ (names : List α) (l : List β), names.Nodup →
      (∀ x ∈ l, key x ∈ names) →
      (names.map (fun n => (l.filter (fun x => key x = n)).length)).sum =
        l.length := by
  intro names
  induction names with
  | nil =>
      intro l _ hcov
      cases l with
      | nil => rfl
      | cons x xs => exact absurd (hcov x (by simp)) (by simp)
  | cons n names2 ih =>
      intro l hnd hcov
      rcases List.nodup_cons.mp hnd with ⟨hn, hnd2⟩
      have hgroups : (names2.map
          (fun m => (l.filter (fun x => key x = m)).length)).sum =
          (l.filter (fun x => !(decide (key x = n)))).length := by
        refine Eq.trans (congrArg List.sum (List.map_congr_left ?_))
          (ih (l.filter (fun x => !(decide (key x = n)))) hnd2 ?_)
        · intro m hm
          congr 1
          rw [List.filter_filter]
          refine (List.filter_congr ?_).symm
          intro x _
          by_cases hxm : key x = m
          · have hmn : ¬ m = n := fun hmn => hn (hmn ▸ hm)
            have hxn : ¬ key x = n := by
              intro h
              exact hmn (by rw [← hxm, h])
            simp [hxm, hxn, hmn]
          · simp [hxm]
        · intro x hx
          have hx2 := List.mem_filter.mp hx
          have hkey := hcov x hx2.1
          rcases List.mem_cons.mp hkey with hk | hk
          · exfalso
            have := hx2.2
            simp [hk] at this
          · exact hk
      rw [List.map_cons, List.sum_cons, hgroups]
      exact filter_partition_length (fun x => decide (key x = n)) l

/-- Claim C10:  Invariants of `calculate_stats`: every per-player record has
`wins + losses = total_games` with `total_games ≥ 1`, and the totals satisfy
`total_games = #input = total_wins + total_losses = Σ per-player
total_games`. -/
theorem claim_C10_stats_invariants (results : List WordleResult) :
    (∀ u ∈ (WordleService.calculate_stats results).user_stats,
      u.wins + u.losses = u.total_games ∧ 1 ≤ u.total_games) ∧
    (WordleService.calculate_stats results).total_games = results.length ∧
    (WordleService.calculate_stats results).total_games =
      (WordleService.calculate_stats results).total_wins +
        (WordleService.calculate_stats results).total_losses ∧
    (WordleService.calculate_stats results).total_games =
      ((WordleService.calculate_stats results).user_stats.map
        (·.total_games)).sum := by
  refine ⟨?_, rfl, ?_, ?_⟩
  · intro u hu
    unfold WordleService.calculate_stats at hu
    simp only [List.mem_map] at hu
    obtain ⟨n, hn, rfl⟩ := hu
    constructor
    · show ((results.filter (fun r => r.author_name = n)).filter
          (·.is_win)).length +
          (((results.filter (fun r => r.author_name = n)).filter
            (fun g => ¬ g.is_win)).length : Int) =
          ((results.filter (fun r => r.author_name = n)).length : Int)
      have hpart := filter_partition_length (fun g : WordleResult => g.is_win)
        (results.filter (fun r => r.author_name = n))
      have halign : ((results.filter (fun r => r.author_name = n)).filter
          (fun g => ¬ g.is_win)) =
          ((results.filter (fun r => r.author_name = n)).filter
            (fun g => !g.is_win)) := by
        refine List.filter_congr ?_
        intro x _
        simp
      rw [halign]
      exact_mod_cast hpart
    · show (1 : Int) ≤ ((results.filter (fun r => r.author_name = n)).length : Int)
      have hnm := mem_firstOccur.mp hn
      obtain ⟨r, hr, hkey⟩ := List.mem_map.mp hnm
      have hmem : r ∈ results.filter (fun x => x.author_name = n) :=
        List.mem_filter.mpr ⟨hr, by simp [hkey]⟩
      have hpos : 0 < (results.filter (fun x => x.author_name = n)).length :=
        List.length_pos.mpr (List.ne_nil_of_mem hmem)
      exact_mod_cast hpos
  · show (results.length : Int) =
      (results.countP (·.is_win) : Int) +
        (results.countP (fun r => ¬ r.is_win) : Int)
    exact_mod_cast List.length_eq_countP_add_countP
      (fun r : WordleResult => r.is_win) results
  · show (results.length : Int) =
      (((firstOccur (results.map (·.author_name))).map fun n =>
        WordleService.mkUserStats n
          (results.filter (·.author_name = n))).map (·.total_games)).sum
    rw [List.map_map]
    have hsum := groupSum_aux (fun r : WordleResult => r.author_name)
      (firstOccur (results.map (·.author_name))) results
      (firstOccur_nodup _)
      (fun x hx => mem_firstOccur.mpr (List.mem_map_of_mem _ hx))
    have hfun : ((fun u : WordleUserStats => u.total_games) ∘ fun n =>
        WordleService.mkUserStats n (results.filter (·.author_name = n))) =
        fun n => ((results.filter (fun r => r.author_name = n)).length : Int) :=
      rfl
    rw [hfun, ← hsum]
    rw [Nat.cast_list_sum, List.map_map]
    rfl

/-- Claim C10, witness:  The invariants applied to a concrete result list
(two games for player A — one win in 3, one loss — and one win for B). -/
theorem claim_C10_stats_invariants_witness :
    ({ username := "A", total_games := 2, wins := 1, losses := 1,
       win_rate := 50, average_guesses := 3 } : WordleUserStats) ∈
      (WordleService.calculate_stats
        [{ author_name := "A", wordle_number := 0, guesses := 3,
           is_win := true },
         { author_name := "A", wordle_number := 0, guesses := 7,
           is_win := false },
         { author_name := "B", wordle_number := 0, guesses := 4,
           is_win := true }]).user_stats ∧
    (({ username := "A", total_games := 2, wins := 1, losses := 1,
        win_rate := 50, average_guesses := 3 } : WordleUserStats).wins +
        ({ username := "A", total_games := 2, wins := 1, losses := 1,
           win_rate := 50, average_guesses := 3 } : WordleUserStats).losses =
        ({ username := "A", total_games := 2, wins := 1, losses := 1,
           win_rate := 50, average_guesses := 3 } : WordleUserStats).total_games ∧
      1 ≤ ({ username := "A", total_games := 2, wins := 1, losses := 1,
             win_rate := 50, average_guesses := 3 } : WordleUserStats).total_games) :=
  ⟨by decide,
   (claim_C10_stats_invariants
     [{ author_name := "A", wordle_number := 0, guesses := 3,
        is_win := true },
      { author_name := "A", wordle_number := 0, guesses := 7,
        is_win := false },
      { author_name := "B", wordle_number := 0, guesses := 4,
        is_win := true }]).1
     { username := "A", total_games := 2, wins := 1, losses := 1,
       win_rate := 50, average_guesses := 3 } (by decide)⟩

/-- Claim C4, code bug:  The membership aggregator cannot pass the
participation counter through: `MemberXPStats` declares no
`quest_participation` field, Pydantic drops the constructor argument, and
the sort key of `calculate_yearly_xp` reads the missing attribute — the call
raises `AttributeError` for any nonempty member list instead of returning
entries carrying the counter. -/
theorem claim_C4_participation_attribute_error :
    HypixelService.calculate_yearly_xp
      [{ uuid := "u1", rank := "Member", joined := 1700000000000,
         exp_history := [("2025-03-01", 100)], quest_participation := 7 }]
      2025 = .error .attributeError := by decide

/-- Claim C8, code bug:  For a member whose experience mapping contains the
malformed key `"bad-date"`, the summation loop does skip that single entry
(the total is the 100 XP of the remaining well-formed in-year entry), but
`calculate_yearly_xp` still raises `AttributeError` from its
participation-sort key, so an exception does propagate to the caller. -/
theorem claim_C8_malformed_key_behaviour :
    HypixelService.calculate_yearly_xp
      [{ uuid := "u2", rank := "Member", joined := 1700000000000,
         exp_history := [("bad-date", 50), ("2025-03-01", 100)],
         quest_participation := 0 }] 2025 = .error .attributeError ∧
    HypixelService.sumExpHistory [("bad-date", 50), ("2025-03-01", 100)]
      2025 = 100 :=
  ⟨by decide, by decide⟩

/-- Claim C1, code bug:  The save/load round trip is broken by the missing
`quest_participation` column of `member_stats` (`scripts/init_db.py:32-45`):
saving a summary with one top XP earner raises
`OperationalError: no column named quest_participation`, and even a summary
with only a top messenger — whose save succeeds — cannot be loaded back,
because the reconstruction loop reads `m["quest_participation"]` from a
`SELECT *` row that has no such key (`IndexError`). -/
theorem claim_C1_roundtrip_broken :
    AnalyticsService.save_to_database init_database
      { year := 2025, total_members := 1, total_guild_xp := 500,
        top_xp_earners :=
          [{ uuid := "u1", username := "Alice", guild_xp := 500,
             quest_participation := 7, joined_this_year := true,
             joined_timestamp := 1735689600000,
             joined_date := "2025-01-01" }] } =
      .error (.noColumn "quest_participation") ∧
    AnalyticsService.save_to_database init_database
      { year := 2025, total_members := 1, total_messages := 5,
        top_messengers :=
          [{ uuid := "", username := "bob", discord_messages := 5,
             times_pinged := 2 }] } =
      .ok { wrapped_snapshots :=
              [{ id := 1, year := 2025,
                 hypixel_data_path := "data/cache/2025/hypixel_guild.json",
                 discord_data_path := "data/cache/2025/discord_messages.json" }]
            member_stats :=
              [{ id := 1, snapshot_id := 1, member_name := some "bob",
                 discord_messages := 5, times_pinged := 2 }]
            guild_stats :=
              [{ id := 1, snapshot_id := 1, total_members := 1,
                 total_messages := 5 }]
            seq_snapshots := 2, seq_member_stats := 2, seq_guild_stats := 2 } ∧
    AnalyticsService.load_from_database
      { wrapped_snapshots :=
          [{ id := 1, year := 2025,
             hypixel_data_path := "data/cache/2025/hypixel_guild.json",
             discord_data_path := "data/cache/2025/discord_messages.json" }]
        member_stats :=
          [{ id := 1, snapshot_id := 1, member_name := some "bob",
             discord_messages := 5, times_pinged := 2 }]
        guild_stats :=
          [{ id := 1, snapshot_id := 1, total_members := 1,
             total_messages := 5 }]
        seq_snapshots := 2, seq_member_stats := 2, seq_guild_stats := 2 }
      2025 [] = .error .indexError :=
  ⟨by decide, by decide, by decide⟩

/-- Claim C2, code bug:  Saving a second summary for the same year does *not*
delete the first save's dependent rows: `INSERT OR REPLACE` allocates a fresh
snapshot id and the `DELETE FROM member_stats` targets that fresh id, so
after the second save the store still holds the first save's member row
(orphaned under snapshot id 1) and both `guild_stats` rows, while only the
new snapshot row (id 2) remains reachable by year. -/
theorem claim_C2_stale_rows_survive_resave :
    AnalyticsService.save_to_database init_database
      { year := 2025, total_messages := 5,
        top_messengers :=
          [{ uuid := "", username := "alice", discord_messages := 5 }] } =
      .ok { wrapped_snapshots :=
              [{ id := 1, year := 2025,
                 hypixel_data_path := "data/cache/2025/hypixel_guild.json",
                 discord_data_path := "data/cache/2025/discord_messages.json" }]
            member_stats :=
              [{ id := 1, snapshot_id := 1, member_name := some "alice",
                 discord_messages := 5 }]
            guild_stats :=
              [{ id := 1, snapshot_id := 1, total_messages := 5 }]
            seq_snapshots := 2, seq_member_stats := 2, seq_guild_stats := 2 } ∧
    AnalyticsService.save_to_database
      { wrapped_snapshots :=
          [{ id := 1, year := 2025,
             hypixel_data_path := "data/cache/2025/hypixel_guild.json",
             discord_data_path := "data/cache/2025/discord_messages.json" }]
        member_stats :=
          [{ id := 1, snapshot_id := 1, member_name := some "alice",
             discord_messages := 5 }]
        guild_stats :=
          [{ id := 1, snapshot_id := 1, total_messages := 5 }]
        seq_snapshots := 2, seq_member_stats := 2, seq_guild_stats := 2 }
      { year := 2025, total_messages := 7,
        top_messengers :=
          [{ uuid := "", username := "bob", discord_messages := 7 }] } =
      .ok { wrapped_snapshots :=
              [{ id := 2, year := 2025,
                 hypixel_data_path := "data/cache/2025/hypixel_guild.json",
                 discord_data_path := "data/cache/2025/discord_messages.json" }]
            member_stats :=
              [{ id := 1, snapshot_id := 1, member_name := some "alice",
                 discord_messages := 5 },
               { id := 2, snapshot_id := 2, member_name := some "bob",
                 discord_messages := 7 }]
            guild_stats :=
              [{ id := 1, snapshot_id := 1, total_messages := 5 },
               { id := 2, snapshot_id := 2, total_messages := 7 }]
            seq_snapshots := 3, seq_member_stats := 3, seq_guild_stats := 3 } :=
  ⟨by decide, by decide⟩

/-- Claim C9:  No aggregation entry point mutates its input collections: for
every heap and every reference allocated before the call (in particular the
input message list, membership list, game-result list and user-stats list),
running `DiscordService.calculate_stats`, `WordleService.calculate_stats` or
`AnalyticsService.combine_stats` leaves that cell's object unchanged — all
writes target collections the call freshly allocates, even on the exception
path. -/
theorem claim_C9_no_input_mutation (h : Heap) (r : Nat) (hr : r < h.next) :
    (∀ msgsRef,
      ((runPyM (DiscordService.calculate_stats_heap msgsRef) h).2).mem r =
        h.mem r) ∧
    (∀ resultsRef,
      ((runPyM (WordleService.calculate_stats_heap resultsRef) h).2).mem r =
        h.mem r) ∧
    (∀ hypixelRef userStatsRef total_messages most_active_day guild_name
        total_guild_xp messagesRef settingsYear,
      ((runPyM (AnalyticsService.combine_stats_heap hypixelRef userStatsRef
          total_messages most_active_day guild_name total_guild_xp messagesRef
          settingsYear) h).2).mem r = h.mem r) := by
  refine ⟨?_, ?_, ?_⟩
  · intro msgsRef
    exact (frame_discord_calculate_stats h.next msgsRef h (le_refl _)).2.1 r hr
  · intro resultsRef
    exact (frame_wordle_calculate_stats h.next resultsRef h (le_refl _)).2.1 r hr
  · intro hypixelRef userStatsRef total_messages most_active_day guild_name
      total_guild_xp messagesRef settingsYear
    exact (frame_combine_stats h.next hypixelRef userStatsRef total_messages
      most_active_day guild_name total_guild_xp messagesRef settingsYear h
      (le_refl _)).2.1 r hr

/-- Claim C9, witness:  The frame theorem applied to a one-cell heap holding a
message list at reference 0. -/
theorem claim_C9_no_input_mutation_witness :
    (∀ msgsRef,
      ((runPyM (DiscordService.calculate_stats_heap msgsRef)
        { mem := fun q => if q = 0 then some (PyObj.msgList []) else none,
          next := 1 }).2).mem 0 =
        ({ mem := fun q => if q = 0 then some (PyObj.msgList []) else none,
           next := 1 } : Heap).mem 0) ∧
    (∀ resultsRef,
      ((runPyM (WordleService.calculate_stats_heap resultsRef)
        { mem := fun q => if q = 0 then some (PyObj.msgList []) else none,
          next := 1 }).2).mem 0 =
        ({ mem := fun q => if q = 0 then some (PyObj.msgList []) else none,
           next := 1 } : Heap).mem 0) ∧
    (∀ hypixelRef userStatsRef total_messages most_active_day guild_name
        total_guild_xp messagesRef settingsYear,
      ((runPyM (AnalyticsService.combine_stats_heap hypixelRef userStatsRef
          total_messages most_active_day guild_name total_guild_xp messagesRef
          settingsYear)
        { mem := fun q => if q = 0 then some (PyObj.msgList []) else none,
          next := 1 }).2).mem 0 =
        ({ mem := fun q => if q = 0 then some (PyObj.msgList []) else none,
           next := 1 } : Heap).mem 0) :=
  claim_C9_no_input_mutation
    { mem := fun q => if q = 0 then some (PyObj.msgList []) else none,
      next := 1 } 0 (by decide)
